import Mathlib

/-!
Verification development for the RxVoice pharmacy voice-agent repository.

The definitions below are a shallow embedding of the JavaScript sources:

* `ConversationStateMachine`  — backend/src/services/ConversationStateMachine.js
* `VoiceSessionManager`       — the per-session orchestrator (WebSocket handler
  with `startSession`, `handleAudioChunk`, `handleEndAudio`, `handleTextInput`,
  `handleInterrupt`, `processUserInput`, `executeAction` and the action
  handlers `requestPatientName`, `requestDateOfBirth`, `verifyPatient`,
  `listPrescriptions`, `checkInteractions`, `processRefill`, ...)
* `PrescriptionsRoute`        — backend/src/routes/prescriptions.js (the
  POST /refill handler and `generateConfirmationNumber`).

External collaborators (Deepgram STT, Gemini LLM, ElevenLabs TTS, the sqlite
database, the drug-interaction service) are modelled as oracle inputs carried
by each event: a call that can fail is an `Except Unit` value.  JavaScript
`null`/`undefined` becomes `Option`, JS string truthiness is modelled by
`strTruthy` (empty string and null are both falsy), and the sequential body
of each `async` handler is translated statement by statement; a `try`/`catch`
whose `try` can only throw at one known place becomes a `match` on the
corresponding oracle.
-/

namespace RxVoice

/-! ## JavaScript-style helpers -/

/-- Truthiness of a nullable JS string: `null`, `undefined` and `""` are falsy. -/
def strTruthy : Option String → Bool
  | none => false
  | some s => s.length != 0

/-- JS `a || b` on nullable strings. -/
def jsOr (a b : Option String) : Option String :=
  if strTruthy a then a else b

/-- Check that `pat` occurs at the start of `l`. -/
def startsWithChars : List Char → List Char → Bool
  | [], _ => true
  | _ :: _, [] => false
  | a :: as, b :: bs => a == b && startsWithChars as bs

/-- Check that `pat` occurs contiguously anywhere in `l`. -/
def containsChars : List Char → List Char → Bool
  | pat, [] => startsWithChars pat []
  | pat, l@(_ :: rest) => startsWithChars pat l || containsChars pat rest

/-- JS `a.includes(b)`: `b` occurs as a contiguous substring of `a`. -/
def jsIncludes (a b : String) : Bool :=
  containsChars b.data a.data

/-- JS `s.toLowerCase()` (ASCII, per `Char.toLower`). -/
def jsToLower (s : String) : String := ⟨s.data.map Char.toLower⟩

/-! ## Data model (sessions, patients, prescriptions) -/

/-- One conversation-history entry (`session.context.history` element). -/
structure Turn where
  role : String
  message : String
  timestamp : Nat
deriving DecidableEq

/-- A row of the `patients` table as used by the verify query. -/
structure Patient where
  id : Nat
  firstName : String
  lastName : String
  dateOfBirth : String
  phone : String
deriving DecidableEq

/-- A row of the `prescriptions` table.  `expires_date` is the timestamp the
JS code obtains via `new Date(rx.expires_date)`; `refills_remaining` is an
`Int` because the unguarded SQL decrement can drive it below zero. -/
structure Prescription where
  id : Nat
  patient_id : Nat
  medication_name : String
  dosage : String
  quantity : Nat
  refills_remaining : Int
  expires_date : Int
  last_filled : Option Int
deriving DecidableEq

/-- `session.context.refillDetails` as set by `processRefill` (the
locale-formatted pickup strings of the source are not representable and are
not referenced by any claim, so they are omitted here). -/
structure RefillDetails where
  confirmationNumber : String
  medication : String
  dosage : String
  quantity : Nat
deriving DecidableEq

/-- `session.context` of `VoiceSessionManager.startSession`, together with the
fields that handlers and `ConversationStateMachine.updateContext` add later
(absent JS fields read as `undefined`, i.e. `none` / `false`). -/
structure SessionCtx where
  patient : Option Patient
  prescriptions : Option (List Prescription)
  selectedPrescription : Option Prescription
  audioBuffer : List Nat
  isRecording : Bool
  isSpeaking : Bool
  history : List Turn
  patientName : Option (String × String)
  patientVerified : Bool
  awaitingDOB : Bool
  prescriptionsListed : Bool
  prescriptionSelected : Bool
  interactionCheckComplete : Bool
  refillComplete : Bool
  errorOccurred : Bool
  errorState : Option String
  interactionWarning : Option String
  refillDetails : Option RefillDetails
deriving DecidableEq

/-- A live session of `VoiceSessionManager.sessions`. -/
structure Session where
  id : String
  startTime : Nat
  lastActivity : Nat
  state : String
  context : SessionCtx
deriving DecidableEq

/-! ## ConversationStateMachine -/

namespace ConversationStateMachine

def GREETING : String := "greeting"
def INTENT_RECOGNITION : String := "intent_recognition"
def IDENTITY_VERIFICATION : String := "identity_verification"
def DATE_OF_BIRTH : String := "date_of_birth"
def PRESCRIPTION_REVIEW : String := "prescription_review"
def PRESCRIPTION_SELECTION : String := "prescription_selection"
def INTERACTION_CHECK : String := "interaction_check"
def CONFIRMATION : String := "confirmation"
def COMPLETED : String := "completed"
def ERROR : String := "error"

/-- The fixed enumerated state set (`this.states`). -/
def statesList : List String :=
  [GREETING, INTENT_RECOGNITION, IDENTITY_VERIFICATION, DATE_OF_BIRTH,
   PRESCRIPTION_REVIEW, PRESCRIPTION_SELECTION, INTERACTION_CHECK,
   CONFIRMATION, COMPLETED, ERROR]

/-- `this.transitions[GREETING]`. -/
def transitionsGreeting (e : String) : Option String :=
  if e == ("refill") then some IDENTITY_VERIFICATION
  else if e == ("question") then some INTENT_RECOGNITION
  else if e == ("greeting") then some INTENT_RECOGNITION
  else if e == ("unclear") then some INTENT_RECOGNITION
  else none

/-- `this.transitions[INTENT_RECOGNITION]`. -/
def transitionsIntentRecognition (e : String) : Option String :=
  if e == ("refill") then some IDENTITY_VERIFICATION
  else if e == ("question") then some IDENTITY_VERIFICATION
  else if e == ("greeting") then some IDENTITY_VERIFICATION
  else if e == ("unclear") then some INTENT_RECOGNITION
  else none

/-- `this.transitions[IDENTITY_VERIFICATION]`. -/
def transitionsIdentityVerification (e : String) : Option String :=
  if e == ("name_provided") then some DATE_OF_BIRTH
  else if e == ("unclear") then some IDENTITY_VERIFICATION
  else if e == ("error") then some ERROR
  else none

/-- `this.transitions[DATE_OF_BIRTH]`. -/
def transitionsDateOfBirth (e : String) : Option String :=
  if e == ("dob_provided") then some PRESCRIPTION_REVIEW
  else if e == ("patient_verified") then some PRESCRIPTION_REVIEW
  else if e == ("patient_not_found") then some ERROR
  else if e == ("unclear") then some DATE_OF_BIRTH
  else if e == ("error") then some ERROR
  else none

/-- `this.transitions[PRESCRIPTION_REVIEW]`. -/
def transitionsPrescriptionReview (e : String) : Option String :=
  if e == ("prescriptions_found") then some PRESCRIPTION_SELECTION
  else if e == ("no_prescriptions") then some ERROR
  else if e == ("error") then some ERROR
  else none

/-- `this.transitions[PRESCRIPTION_SELECTION]`. -/
def transitionsPrescriptionSelection (e : String) : Option String :=
  if e == ("prescription_selected") then some INTERACTION_CHECK
  else if e == ("unclear") then some PRESCRIPTION_SELECTION
  else if e == ("no_refills") then some ERROR
  else if e == ("expired") then some ERROR
  else none

/-- `this.transitions[INTERACTION_CHECK]`. -/
def transitionsInteractionCheck (e : String) : Option String :=
  if e == ("no_interactions") then some CONFIRMATION
  else if e == ("interactions_found") then some ERROR
  else if e == ("check_complete") then some CONFIRMATION
  else none

/-- `this.transitions[CONFIRMATION]`. -/
def transitionsConfirmation (e : String) : Option String :=
  if e == ("confirmed") then some COMPLETED
  else if e == ("cancelled") then some GREETING
  else if e == ("error") then some ERROR
  else none

/-- `this.transitions[COMPLETED]`. -/
def transitionsCompleted (e : String) : Option String :=
  if e == ("new_request") then some GREETING
  else if e == ("goodbye") then some COMPLETED
  else none

/-- `this.transitions[ERROR]`. -/
def transitionsError (e : String) : Option String :=
  if e == ("retry") then some GREETING
  else if e == ("new_request") then some GREETING
  else if e == ("goodbye") then some COMPLETED
  else none

/-- `this.transitions`: per-state event table.  A JS object keyed by event
strings becomes a function from the event string to an optional next state. -/
def transitionsFor (s : String) : Option (String → Option String) :=
  if s == GREETING then some transitionsGreeting
  else if s == INTENT_RECOGNITION then some transitionsIntentRecognition
  else if s == IDENTITY_VERIFICATION then some transitionsIdentityVerification
  else if s == DATE_OF_BIRTH then some transitionsDateOfBirth
  else if s == PRESCRIPTION_REVIEW then some transitionsPrescriptionReview
  else if s == PRESCRIPTION_SELECTION then some transitionsPrescriptionSelection
  else if s == INTERACTION_CHECK then some transitionsInteractionCheck
  else if s == CONFIRMATION then some transitionsConfirmation
  else if s == COMPLETED then some transitionsCompleted
  else if s == ERROR then some transitionsError
  else none

/-- `getActionForTransition`: keyed by the `fromState->toState` string. -/
def getActionForTransition (fromState toState : String) : String :=
  let transitionKey := fromState ++ "->" ++ toState
  if transitionKey == GREETING ++ "->" ++ IDENTITY_VERIFICATION then ("request_name")
  else if transitionKey == INTENT_RECOGNITION ++ "->" ++ IDENTITY_VERIFICATION then ("request_name")
  else if transitionKey == IDENTITY_VERIFICATION ++ "->" ++ DATE_OF_BIRTH then ("request_dob")
  else if transitionKey == DATE_OF_BIRTH ++ "->" ++ PRESCRIPTION_REVIEW then ("verify_patient")
  else if transitionKey == PRESCRIPTION_REVIEW ++ "->" ++ PRESCRIPTION_SELECTION then ("list_prescriptions")
  else if transitionKey == PRESCRIPTION_SELECTION ++ "->" ++ INTERACTION_CHECK then ("check_interactions")
  else if transitionKey == INTERACTION_CHECK ++ "->" ++ CONFIRMATION then ("process_refill")
  else if transitionKey == CONFIRMATION ++ "->" ++ COMPLETED then ("complete_refill")
  else if transitionKey == COMPLETED ++ "->" ++ GREETING then ("start_new_conversation")
  else if transitionKey == ERROR ++ "->" ++ GREETING then ("restart_conversation")
  else ("continue")

/-- `updateContext(fromState, toState, event, context)`: the context patch
applied on entry to `toState` (the `event` argument is unused in the source
as well). -/
def updateContext (fromState toState : String) (_event : String) (ctx : SessionCtx) : SessionCtx :=
  if toState == DATE_OF_BIRTH then
    if ctx.patientName.isSome then { ctx with awaitingDOB := true } else ctx
  else if toState == PRESCRIPTION_REVIEW then
    { ctx with patientVerified := true, awaitingDOB := false }
  else if toState == PRESCRIPTION_SELECTION then
    { ctx with prescriptionsListed := true }
  else if toState == INTERACTION_CHECK then
    { ctx with prescriptionSelected := true }
  else if toState == CONFIRMATION then
    { ctx with interactionCheckComplete := true }
  else if toState == COMPLETED then
    { ctx with refillComplete := true }
  else if toState == ERROR then
    { ctx with errorOccurred := true, errorState := some fromState }
  else ctx

/-- The record returned by `transition`; `context` is absent (`none`) on the
two fallback branches of the source. -/
structure TransResult where
  state : String
  action : String
  context : Option SessionCtx
deriving DecidableEq

/-- `transition(currentState, event, context)`. -/
def transition (currentState event : String) (ctx : SessionCtx) : TransResult :=
  match transitionsFor currentState with
  | none =>
    { state := ERROR, action := "error_no_transitions", context := none }
  | some possibleTransitions =>
    match possibleTransitions event with
    | none =>
      { state := if event == "unclear" then currentState else ERROR,
        action := "stay_or_error", context := none }
    | some nextState =>
      { state := nextState,
        action := getActionForTransition currentState nextState,
        context := some (updateContext currentState nextState event ctx) }

end ConversationStateMachine

/-! ## Collaborator oracles and outbound messages -/

/-- `extractPatientInfo` result (all fields nullable).  The Gemini service
catches its own errors and falls back to a local regex extractor, so the call
never throws. -/
structure PatientInfo where
  firstName : Option String
  lastName : Option String
  dateOfBirth : Option String

/-- `checkDrugInteractions` result. -/
structure InteractionResult where
  hasInteractions : Bool
  warning : String
deriving DecidableEq

/-- Per-event oracle: the values the external collaborators and clocks return
during the processing of one inbound event.  `analyzeIntent` and
`extractPatientInfo` never throw (GeminiService falls back internally); the
database calls, the drug-interaction service, Deepgram STT and ElevenLabs TTS
can fail and are `Except Unit` valued. -/
structure Oracle where
  now : Nat
  rand : Nat
  intent : String
  extractInfo : PatientInfo
  dbPatient : Except Unit (Option Patient)
  dbPrescriptions : Except Unit (List Prescription)
  interaction : Except Unit InteractionResult
  dbUpdateOk : Bool
  stt : Except Unit String
  tts : Except Unit Unit
  generated : Except Unit String

/-- Outbound WebSocket notifications (`sendMessage` payload types). -/
inductive Msg where
  | recording_status (isRecording : Bool)
  | speaking_status (isSpeaking : Bool)
  | transcript (role : String) (message : String)
  | audio_response
  | processing
  | interrupted
  | errorMessage (message : String)
  | session_started (sessionId : String) (message : String)
  | session_ended (sessionId : String)
deriving DecidableEq

/-! ## Confirmation-number generation

`generateConfirmationNumber` (identical in VoiceSessionManager and in
backend/src/routes/prescriptions.js):

    const timestamp = Date.now().toString().slice(-6);
    const random = Math.floor(Math.random() * 1000).toString().padStart(3, '0');
    return `RX` + timestamp + random;

`nowMs` stands for `Date.now()` and `rand` for the already-floored
`Math.floor(Math.random() * 1000)`. -/

/-- The decimal digit character for `d < 10` (JS number-to-string digits). -/
def digitChar (d : Nat) : Char := Char.ofNat (48 + d)

/-- Decimal representation of a `Nat`, mirroring JS `Number.prototype.toString()`. -/
def decDigits (n : Nat) : List Char :=
  if _h : n < 10 then [digitChar n]
  else decDigits (n / 10) ++ [digitChar (n % 10)]
decreasing_by exact Nat.div_lt_self (by omega) (by omega)

def jsNumToString (n : Nat) : String := ⟨decDigits n⟩

/-- JS `s.slice(-6)`: the last six characters (the whole string if shorter). -/
def jsSliceLastSix (s : String) : String := ⟨s.data.drop (s.data.length - 6)⟩

/-- JS `s.padStart(3, '0')`. -/
def jsPadStart3 (s : String) : String := ⟨List.replicate (3 - s.data.length) '0' ++ s.data⟩

def generateConfirmationNumber (nowMs rand : Nat) : String :=
  let timestamp := jsSliceLastSix (jsNumToString nowMs)
  let random := jsPadStart3 (jsNumToString rand)
  "RX" ++ timestamp ++ random

/-! ## VoiceSessionManager: per-session handlers -/

namespace VoiceSessionManager

open ConversationStateMachine

/-- `startSession` context literal. -/
def initialContext : SessionCtx :=
  { patient := none
    prescriptions := none
    selectedPrescription := none
    audioBuffer := []
    isRecording := false
    isSpeaking := false
    history := []
    patientName := none
    patientVerified := false
    awaitingDOB := false
    prescriptionsListed := false
    prescriptionSelected := false
    interactionCheckComplete := false
    refillComplete := false
    errorOccurred := false
    errorState := none
    interactionWarning := none
    refillDetails := none }

/-- `synthesizeAndSendAudio`: sets `isSpeaking`, emits the speaking status,
synthesizes (may fail, in which case it continues without audio) and in the
`finally` block clears `isSpeaking` and emits the status again. -/
def synthesizeAndSendAudio (s : Session) (o : Oracle) : Session × List Msg :=
  let s1 : Session := { s with context := { s.context with isSpeaking := true } }
  let audioMsgs : List Msg :=
    match o.tts with
    | .ok _ => [Msg.audio_response]
    | .error _ => []
  let s2 : Session := { s1 with context := { s1.context with isSpeaking := false } }
  (s2, Msg.speaking_status true :: audioMsgs ++ [Msg.speaking_status false])

/-- `sendResponse`: appends the assistant turn to history, emits the
transcript, then synthesizes audio. -/
def sendResponse (s : Session) (text : String) (o : Oracle) : Session × List Msg :=
  let s1 : Session :=
    { s with context :=
        { s.context with history := s.context.history ++ [⟨"assistant", text, o.now⟩] } }
  let r := synthesizeAndSendAudio s1 o
  (r.1, Msg.transcript ("assistant") text :: r.2)

/-- Session-level core of `handleInterrupt` (the registry lookup is handled at
the `handleMessage` level): clears `isSpeaking` and notifies the transport. -/
def handleInterruptSession (s : Session) : Session × List Msg :=
  ({ s with context := { s.context with isSpeaking := false } }, [Msg.interrupted])

/-- `handleAudioChunk` (session-level): touch `lastActivity`; if the agent is
speaking, run the interrupt; then append the chunk and set `isRecording`. -/
def handleAudioChunk (s : Session) (audioData : List Nat) (now : Nat) : Session × List Msg :=
  let s0 : Session := { s with lastActivity := now }
  let r1 := if s0.context.isSpeaking then handleInterruptSession s0 else (s0, [])
  let s1 := r1.1
  let s2 : Session :=
    { s1 with context :=
        { s1.context with audioBuffer := s1.context.audioBuffer ++ audioData,
                          isRecording := true } }
  (s2, r1.2 ++ [Msg.recording_status true])

def requestPatientName (s : Session) (o : Oracle) : Session × List Msg :=
  sendResponse s ("I\x27d be happy to help you with your prescription refill. To get started, could you please tell me your full name?") o

def requestDateOfBirth (s : Session) (o : Oracle) : Session × List Msg :=
  let patientInfo := o.extractInfo
  if strTruthy patientInfo.firstName && strTruthy patientInfo.lastName then
    let newName : Option (String × String) :=
      some (patientInfo.firstName.getD (""), patientInfo.lastName.getD (""))
    let s1 : Session :=
      { s with context := { s.context with patientName := newName } }
    sendResponse s1 ("Thank you, " ++ patientInfo.firstName.getD ("") ++ ". Now, could you please provide your date of birth for verification? Please say it in month, day, year format.") o
  else
    sendResponse s ("I didn\x27t catch your full name clearly. Could you please tell me your first and last name?") o

/-- `listPrescriptions`: reads `session.context.patient.id` (throws into the
surrounding catch when `patient` is null), queries all rows for the patient,
filters to the selectable ones (`expiresDate > now && refills_remaining > 0`),
and only stores the filtered list when it is non-empty. -/
def listPrescriptions (s : Session) (o : Oracle) : Session × List Msg :=
  match s.context.patient with
  | none =>
    sendResponse s ("I\x27m having trouble accessing your prescription information. Please try again.") o
  | some _patient =>
    match o.dbPrescriptions with
    | .error _ =>
      sendResponse s ("I\x27m having trouble accessing your prescription information. Please try again.") o
    | .ok prescriptions =>
      let availablePrescriptions := prescriptions.filter
        (fun rx => decide ((o.now : Int) < rx.expires_date) && decide ((0 : Int) < rx.refills_remaining))
      if availablePrescriptions.isEmpty then
        sendResponse s ("I don\x27t see any prescriptions available for refill at this time. You may need to contact your doctor for new prescriptions.") o
      else
        let s1 : Session :=
          { s with context := { s.context with prescriptions := some availablePrescriptions } }
        let response := "I found " ++ toString availablePrescriptions.length ++
          " prescription" ++ (if availablePrescriptions.length > 1 then ("s") else ("")) ++
          " available for refill: " ++
          String.intercalate (", ") (availablePrescriptions.map (fun rx => rx.medication_name ++ " " ++ rx.dosage)) ++
          ". Which medication would you like to refill today?"
        sendResponse s1 response o

/-- `verifyPatient`: extract name/DOB (falling back to the previously captured
name), early-return when incomplete, look the patient up, and on a hit store
the patient, auto-fire `patient_verified` and immediately list prescriptions;
on a miss auto-fire `patient_not_found`. -/
def verifyPatient (s : Session) (_userInput : String) (o : Oracle) : Session × List Msg :=
  let patientInfo := o.extractInfo
  let firstName := jsOr patientInfo.firstName (s.context.patientName.map Prod.fst)
  let lastName := jsOr patientInfo.lastName (s.context.patientName.map Prod.snd)
  let dateOfBirth := patientInfo.dateOfBirth
  if !(strTruthy firstName && strTruthy lastName && strTruthy dateOfBirth) then
    sendResponse s ("I need your complete information to verify your identity. Could you please provide your full name and date of birth?") o
  else
    match o.dbPatient with
    | .error _ =>
      sendResponse s ("I\x27m having trouble verifying your information right now. Could you please try again?") o
    | .ok none =>
      let r := sendResponse s ("I couldn\x27t find a patient with that information in our system. Could you please double-check your name and date of birth?") o
      let tr := transition r.1.state ("patient_not_found") r.1.context
      ({ r.1 with state := tr.state }, r.2)
    | .ok (some patient) =>
      let s1 : Session := { s with context := { s.context with patient := some patient } }
      let r := sendResponse s1 ("Perfect! I found your account, " ++ patient.firstName ++ ". Let me look up your available prescriptions.") o
      let tr := transition r.1.state ("patient_verified") r.1.context
      let s2 : Session := { r.1 with state := tr.state }
      let r2 := listPrescriptions s2 o
      (r2.1, r.2 ++ r2.2)

/-- `processRefill`: reads `selectedPrescription` (a null dereference inside
the try lands in the catch), runs the unguarded SQL decrement, stores the
refill details and auto-fires `confirmed` on success. -/
def processRefill (s : Session) (o : Oracle) : Session × List Msg :=
  match s.context.selectedPrescription with
  | none =>
    sendResponse s ("I\x27m sorry, I encountered an issue processing your refill. Please contact the pharmacy directly or try again later.") o
  | some prescription =>
    let confirmationNumber := generateConfirmationNumber o.now o.rand
    if o.dbUpdateOk then
      let details : RefillDetails :=
        { confirmationNumber := confirmationNumber
          medication := prescription.medication_name
          dosage := prescription.dosage
          quantity := prescription.quantity }
      let s1 : Session :=
        { s with context := { s.context with refillDetails := some details } }
      let r := sendResponse s1 ("Perfect! Your refill for " ++ prescription.medication_name ++ " " ++ prescription.dosage ++ " has been processed. Your confirmation number is " ++ confirmationNumber ++ ". Your prescription will be ready for pickup. Is there anything else I can help you with today?") o
      let tr := transition r.1.state ("confirmed") r.1.context
      ({ r.1 with state := tr.state }, r.2)
    else
      sendResponse s ("I\x27m sorry, I encountered an issue processing your refill. Please contact the pharmacy directly or try again later.") o

/-- The catch block of `checkInteractions`: respond with the fail-open notice,
auto-fire `check_complete` and proceed to `processRefill` anyway. -/
def checkInteractionsCatch (s : Session) (o : Oracle) : Session × List Msg :=
  let r := sendResponse s ("I\x27m having trouble checking for drug interactions. Let me proceed with caution and process your refill.") o
  let tr := transition r.1.state ("check_complete") r.1.context
  let s1 : Session := { r.1 with state := tr.state }
  let r2 := processRefill s1 o
  (r2.1, r.2 ++ r2.2)

/-- The fuzzy prescription match of `checkInteractions` (case-insensitive
substring containment in either direction, first match in scan order). -/
def interactionMatch (userInput : String) (rxs : List Prescription) : Option Prescription :=
  let selectedMedication := jsToLower userInput
  rxs.find? (fun rx =>
    jsIncludes (jsToLower rx.medication_name) selectedMedication ||
    jsIncludes selectedMedication (jsToLower rx.medication_name))

/-- `checkInteractions`: resolve the named prescription against the eligible
list (a null list throws into the catch), store the selection, then consult
the interaction service; interactions move the session to ERROR, a clean
check or a service failure proceeds to `processRefill`. -/
def checkInteractions (s : Session) (userInput : String) (o : Oracle) : Session × List Msg :=
  match s.context.prescriptions with
  | none => checkInteractionsCatch s o
  | some rxs =>
    match interactionMatch userInput rxs with
    | none =>
      sendResponse s ("I didn\x27t find that medication in your available prescriptions. Could you please tell me which one you\x27d like to refill?") o
    | some prescription =>
      let s1 : Session :=
        { s with context := { s.context with selectedPrescription := some prescription } }
      match o.interaction with
      | .error _ => checkInteractionsCatch s1 o
      | .ok interactionCheck =>
        if interactionCheck.hasInteractions then
          let r := sendResponse s1 ("I found a potential drug interaction with " ++ prescription.medication_name ++ ". " ++ interactionCheck.warning ++ " Would you like me to contact your pharmacist for review?") o
          let s2 : Session :=
            { r.1 with context := { r.1.context with interactionWarning := some interactionCheck.warning } }
          let s3 : Session := { s2 with state := ERROR }
          (s3, r.2)
        else
          let r := sendResponse s1 ("Great! I\x27ve checked for interactions and " ++ prescription.medication_name ++ " " ++ prescription.dosage ++ " is safe to refill. Let me process that for you now.") o
          let tr := transition r.1.state ("no_interactions") r.1.context
          let s2 : Session := { r.1 with state := tr.state }
          let r2 := processRefill s2 o
          (r2.1, r.2 ++ r2.2)

def completeRefill (s : Session) (o : Oracle) : Session × List Msg :=
  sendResponse s ("Thank you for using RxVoice Assistant! Have a great day and remember to take your medications as prescribed.") o

def generateContextualResponse (s : Session) (_userInput : String) (o : Oracle) : Session × List Msg :=
  match o.generated with
  | .ok response => sendResponse s response o
  | .error _ =>
    sendResponse s ("I\x27m sorry, I didn\x27t understand that. Could you please repeat your request?") o

def handleNoTranscription (s : Session) (o : Oracle) : Session × List Msg :=
  sendResponse s ("I didn\x27t catch that. Could you please speak a bit louder or repeat what you said?") o

def handleTranscriptionError (s : Session) (o : Oracle) : Session × List Msg :=
  sendResponse s ("I\x27m having trouble hearing you clearly. Could you please try speaking again?") o

def handleProcessingError (s : Session) (o : Oracle) : Session × List Msg :=
  sendResponse s ("I apologize, I\x27m having some technical difficulties. Could you please try again?") o

/-- `executeAction` dispatch (both `continue` and unknown actions fall through
to the contextual LLM response). -/
def executeAction (s : Session) (action userInput : String) (o : Oracle) : Session × List Msg :=
  if action == "request_name" then requestPatientName s o
  else if action == "request_dob" then requestDateOfBirth s o
  else if action == "verify_patient" then verifyPatient s userInput o
  else if action == "list_prescriptions" then listPrescriptions s o
  else if action == "check_interactions" then checkInteractions s userInput o
  else if action == "process_refill" then processRefill s o
  else if action == "complete_refill" then completeRefill s o
  else generateContextualResponse s userInput o

/-- `processUserInput`: push the user turn, classify intent, apply the state
machine transition (merging the context patch when present) and dispatch the
action. -/
def processUserInput (s : Session) (userInput : String) (o : Oracle) : Session × List Msg :=
  let s1 : Session :=
    { s with context :=
        { s.context with history := s.context.history ++ [⟨"user", userInput, o.now⟩] } }
  let tr := transition s1.state o.intent s1.context
  let s2 : Session := { s1 with state := tr.state, context := tr.context.getD s1.context }
  let r := executeAction s2 tr.action userInput o
  (r.1, Msg.transcript ("user") userInput :: r.2)

/-- `handleEndAudio` (session-level): clear `isRecording`; a non-empty buffer
goes to STT (failure and empty-transcript paths recover locally), an empty
buffer does nothing; the `finally` block clears the buffer and emits the
recording status. -/
def handleEndAudio (s : Session) (o : Oracle) : Session × List Msg :=
  let s0 : Session := { s with context := { s.context with isRecording := false } }
  let r :=
    if s0.context.audioBuffer.length > 0 then
      match o.stt with
      | .error _ =>
        let r1 := handleTranscriptionError s0 o
        (r1.1, Msg.processing :: r1.2)
      | .ok transcript =>
        if transcript.length > 0 then
          let r1 := processUserInput s0 transcript o
          (r1.1, Msg.processing :: r1.2)
        else
          let r1 := handleNoTranscription s0 o
          (r1.1, Msg.processing :: r1.2)
    else (s0, ([] : List Msg))
  let s2 : Session := { r.1 with context := { r.1.context with audioBuffer := [] } }
  (s2, r.2 ++ [Msg.recording_status false])

/-- `handleTextInput` (session-level). -/
def handleTextInput (s : Session) (text : String) (o : Oracle) : Session × List Msg :=
  let s1 : Session := { s with lastActivity := o.now }
  processUserInput s1 text o

/-- `startSession`: fresh session plus greeting synthesis and notification. -/
def startSession (sessionId : String) (o : Oracle) : Session × List Msg :=
  let greeting := "Hello! I\x27m RxVoice Assistant, your pharmacy helper. I can help you refill prescriptions or answer basic medication questions. How can I assist you today?"
  let s : Session :=
    { id := sessionId, startTime := o.now, lastActivity := o.now,
      state := GREETING, context := initialContext }
  let r := synthesizeAndSendAudio s o
  (r.1, r.2 ++ [Msg.session_started sessionId greeting])

/-! ### Per-session event sequences -/

/-- One inbound orchestrator event for an existing session, bundled with the
collaborator oracle for its processing. -/
inductive Event where
  | audio_chunk (audioData : List Nat) (o : Oracle)
  | end_audio (o : Oracle)
  | text_input (text : String) (o : Oracle)
  | interrupt

/-- Applying one event to a session. -/
def step (s : Session) (e : Event) : Session × List Msg :=
  match e with
  | .audio_chunk audioData o => handleAudioChunk s audioData o.now
  | .end_audio o => handleEndAudio s o
  | .text_input text o => handleTextInput s text o
  | .interrupt => handleInterruptSession s

/-- The session resulting from a fresh `startSession` followed by a sequence
of events. -/
def runEvents (sessionId : String) (o0 : Oracle) (events : List Event) : Session :=
  events.foldl (fun s e => (step s e).1) (startSession sessionId o0).1

/-! ### Registry-level message dispatch (`handleMessage`) -/

/-- The `this.sessions` map. -/
def Sessions := List (String × Session)

/-- JS `Map.set`: replace when present, append otherwise. -/
def setSession (m : List (String × Session)) (sessionId : String) (s : Session) :
    List (String × Session) :=
  if (m.lookup sessionId).isSome then
    m.map (fun p => if p.1 == sessionId then (sessionId, s) else p)
  else m ++ [(sessionId, s)]

/-- One inbound WebSocket message (`handleMessage` argument). -/
inductive WsEvent where
  | start_session (sessionId : String) (o : Oracle)
  | audio_chunk (sessionId : String) (audioData : List Nat) (o : Oracle)
  | end_audio (sessionId : String) (o : Oracle)
  | text_input (sessionId : String) (text : String) (o : Oracle)
  | interrupt (sessionId : String)
  | end_session (sessionId : String)

/-- `handleMessage`: dispatch on the message type.  The handlers throw
`Session not found` for an unknown id (caught by `handleMessage` and reported
via `sendError`) — except `handleInterrupt` and `endSession`, which silently
return. -/
def handleMessage (sessions : List (String × Session)) (e : WsEvent) :
    List (String × Session) × List Msg :=
  match e with
  | .start_session sessionId o =>
    let r := startSession sessionId o
    (setSession sessions sessionId r.1, r.2)
  | .audio_chunk sessionId audioData o =>
    match sessions.lookup sessionId with
    | none => (sessions, [Msg.errorMessage ("Session not found")])
    | some s =>
      let r := handleAudioChunk s audioData o.now
      (setSession sessions sessionId r.1, r.2)
  | .end_audio sessionId o =>
    match sessions.lookup sessionId with
    | none => (sessions, [Msg.errorMessage ("Session not found")])
    | some s =>
      let r := handleEndAudio s o
      (setSession sessions sessionId r.1, r.2)
  | .text_input sessionId text o =>
    match sessions.lookup sessionId with
    | none => (sessions, [Msg.errorMessage ("Session not found")])
    | some s =>
      let r := handleTextInput s text o
      (setSession sessions sessionId r.1, r.2)
  | .interrupt sessionId =>
    match sessions.lookup sessionId with
    | none => (sessions, [])
    | some s =>
      let r := handleInterruptSession s
      (setSession sessions sessionId r.1, r.2)
  | .end_session sessionId =>
    match sessions.lookup sessionId with
    | none => (sessions, [])
    | some _ => (sessions.filter (fun p => p.1 != sessionId), [Msg.session_ended sessionId])

end VoiceSessionManager

/-! ## POST /refill route (backend/src/routes/prescriptions.js) -/

namespace PrescriptionsRoute

/-- An HTTP response of the refill route (status code, `success` flag,
`message`, and the `refillsRemaining` echo of the success payload, which the
source computes from the value read at the start of the request). -/
structure RouteResponse where
  status : Nat
  success : Bool
  message : String
  refillsRemaining : Option Int
deriving DecidableEq

/-- The `UPDATE prescriptions SET refills_remaining = refills_remaining - 1,
last_filled = DATE('now') WHERE id = ?` statement: an unconditional decrement
of the matching row, with no guard of any kind. -/
def dbUpdateRefill (db : List Prescription) (prescriptionId : Nat) (today : Int) :
    List Prescription :=
  db.map (fun rx =>
    if rx.id == prescriptionId then
      { rx with refills_remaining := rx.refills_remaining - 1, last_filled := some today }
    else rx)

/-- The row returned by the initial `SELECT ... WHERE p.id = ? AND
p.patient_id = ?`. -/
def dbGetPrescription (db : List Prescription) (prescriptionId patientId : Nat) :
    Option Prescription :=
  db.find? (fun rx => rx.id == prescriptionId && rx.patient_id == patientId)

/-- The POST /refill handler.  The handler runs two separate SQL statements:
a `SELECT` (against the database state when the request starts, `dbAtRead`)
whose row is used for the expiry / refills-remaining / interaction checks,
and then an `UPDATE` (against the database state when the update statement
executes, `dbAtCommit`).  Because the two statements are separate async
callbacks, the database may change in between; the sequential execution of a
single request is the special case `dbAtCommit = dbAtRead`
(`postRefillSeq` below). -/
def postRefill (dbAtRead dbAtCommit : List Prescription)
    (prescriptionId patientId : Nat) (now today : Int)
    (interaction : Except Unit InteractionResult) (dbRunOk : Bool) :
    RouteResponse × List Prescription :=
  match dbGetPrescription dbAtRead prescriptionId patientId with
  | none =>
    ({ status := 404, success := false, message := "Prescription not found",
       refillsRemaining := none }, dbAtCommit)
  | some prescription =>
    if prescription.expires_date < now then
      ({ status := 400, success := false,
         message := "This prescription has expired. Please contact your doctor for a new prescription.",
         refillsRemaining := none }, dbAtCommit)
    else if prescription.refills_remaining ≤ 0 then
      ({ status := 400, success := false,
         message := "No refills remaining for this prescription. Please contact your doctor.",
         refillsRemaining := none }, dbAtCommit)
    else
      let blocked :=
        match interaction with
        | .ok interactionCheck => interactionCheck.hasInteractions
        | .error _ => false
      if blocked then
        ({ status := 400, success := false,
           message := "Potential drug interaction detected. Please consult with your pharmacist or doctor.",
           refillsRemaining := none }, dbAtCommit)
      else if dbRunOk then
        ({ status := 200, success := true, message := "Refill processed successfully",
           refillsRemaining := some (prescription.refills_remaining - 1) },
         dbUpdateRefill dbAtCommit prescriptionId today)
      else
        ({ status := 500, success := false, message := "Failed to process refill",
           refillsRemaining := none }, dbAtCommit)

/-- The refill route under sequential (non-interleaved) execution. -/
def postRefillSeq (db : List Prescription) (prescriptionId patientId : Nat)
    (now today : Int) (interaction : Except Unit InteractionResult) (dbRunOk : Bool) :
    RouteResponse × List Prescription :=
  postRefill db db prescriptionId patientId now today interaction dbRunOk

end PrescriptionsRoute

/-! ## Concrete fixtures for witnesses and counterexamples -/

namespace Fixtures

open VoiceSessionManager

/-- A benign collaborator oracle (everything succeeds, nothing interesting). -/
def oBase : Oracle :=
  { now := 0, rand := 0, intent := "", extractInfo := ⟨none, none, none⟩,
    dbPatient := .ok none, dbPrescriptions := .ok [],
    interaction := .ok ⟨false, ""⟩, dbUpdateOk := true,
    stt := .ok "", tts := .ok (), generated := .ok "" }

def patJohn : Patient := ⟨1, "John", "Smith", "1965-05-15", "5550100"⟩

def rxMetformin : Prescription := ⟨1, 1, "Metformin", "500mg", 30, 3, 100, none⟩

def rxLisinopril : Prescription := ⟨2, 1, "Lisinopril", "10mg", 30, 2, 100, none⟩

/-- An exhausted prescription (zero refills remaining). -/
def rxAspirin : Prescription := ⟨3, 1, "Aspirin", "81mg", 30, 0, 100, none⟩

/-- Oracle returning both a selectable and an exhausted prescription row. -/
def oTwoRx : Oracle :=
  { oBase with dbPrescriptions := .ok [rxMetformin, rxAspirin] }

/-- A session whose context already holds the verified patient. -/
def sPatient : Session :=
  { id := "s1", startTime := 0, lastActivity := 0,
    state := ConversationStateMachine.PRESCRIPTION_SELECTION,
    context := { initialContext with patient := some patJohn } }

/-- A session whose context already holds an eligible list. -/
def sEligible : Session :=
  { id := "s1", startTime := 0, lastActivity := 0,
    state := ConversationStateMachine.INTERACTION_CHECK,
    context := { initialContext with patient := some patJohn, prescriptions := some [rxMetformin] } }

/-- Oracle whose drug-interaction check throws. -/
def oInteractionError : Oracle := { oBase with interaction := .error () }

def nameInfo : PatientInfo := ⟨some ("John"), some ("Smith"), none⟩

def fullInfo : PatientInfo := ⟨some ("John"), some ("Smith"), some ("1965-05-15")⟩

/-- An event sequence that drives a fresh session through identity
verification (the successful `verifyPatient` lands the session in ERROR via
the auto-fired `patient_verified` event), back around through a second
verification pass that early-returns at PRESCRIPTION_REVIEW, a re-listing,
and a prescription selection whose interaction check reports a warning, so
that `selectedPrescription` ends up set. -/
def oRefill : Oracle := { oBase with intent := "refill" }

def oName : Oracle := { oBase with intent := "name_provided", extractInfo := nameInfo }

def oDobFull : Oracle :=
  { oBase with
      intent := "dob_provided"
      extractInfo := fullInfo
      dbPatient := .ok (some patJohn)
      dbPrescriptions := .ok [rxMetformin] }

def oDobIncomplete : Oracle := { oBase with intent := "dob_provided", extractInfo := nameInfo }

def oRetry : Oracle := { oBase with intent := "retry" }

def oListMetformin : Oracle :=
  { oBase with intent := "prescriptions_found", dbPrescriptions := .ok [rxMetformin] }

def oListLisinopril : Oracle :=
  { oBase with intent := "prescriptions_found", dbPrescriptions := .ok [rxLisinopril] }

def oSelectWarned : Oracle :=
  { oBase with
      intent := "prescription_selected"
      interaction := .ok ⟨true, "Interacts with your current medication."⟩ }

def eventsSelect : List Event :=
  [ .text_input ("I need a refill") oRefill,
    .text_input ("John Smith") oName,
    .text_input ("May 15 1965") oDobFull,
    .text_input ("retry") oRetry,
    .text_input ("refill") oRefill,
    .text_input ("John Smith") oName,
    .text_input ("ok") oDobIncomplete,
    .text_input ("list them") oListMetformin,
    .text_input ("metformin") oSelectWarned ]

/-- `eventsSelect` followed by a third verification loop whose re-listing
fetches a different eligible list that no longer contains the selected
prescription. -/
def eventsRefetch : List Event :=
  eventsSelect ++
  [ .text_input ("retry") oRetry,
    .text_input ("refill") oRefill,
    .text_input ("John Smith") oName,
    .text_input ("ok") oDobIncomplete,
    .text_input ("list them") oListLisinopril ]

end Fixtures

/-- Inductive invariant used to verify the identity-gating claim: a non-null
`selectedPrescription` implies the `patientVerified` flag, and a session whose
dialogue state is PRESCRIPTION_REVIEW or PRESCRIPTION_SELECTION has the flag
set (the flag is planted by the context patch on entry to
PRESCRIPTION_REVIEW and is never cleared). -/
def SessionInv (s : Session) : Prop :=
  (s.context.selectedPrescription.isSome → s.context.patientVerified = true) ∧
  ((s.state = ConversationStateMachine.PRESCRIPTION_REVIEW ∨
    s.state = ConversationStateMachine.PRESCRIPTION_SELECTION) →
    s.context.patientVerified = true)

/-! # Theorems -/

namespace ConversationStateMachine

/-- Case analysis on `transitionsFor`: an arbitrary state string either has no
table or is one of the ten enumerated states with its table. -/
theorem transitionsFor_cases (s : String) :
    transitionsFor s = none ∨
    (s = GREETING ∧ transitionsFor s = some transitionsGreeting) ∨
    (s = INTENT_RECOGNITION ∧ transitionsFor s = some transitionsIntentRecognition) ∨
    (s = IDENTITY_VERIFICATION ∧ transitionsFor s = some transitionsIdentityVerification) ∨
    (s = DATE_OF_BIRTH ∧ transitionsFor s = some transitionsDateOfBirth) ∨
    (s = PRESCRIPTION_REVIEW ∧ transitionsFor s = some transitionsPrescriptionReview) ∨
    (s = PRESCRIPTION_SELECTION ∧ transitionsFor s = some transitionsPrescriptionSelection) ∨
    (s = INTERACTION_CHECK ∧ transitionsFor s = some transitionsInteractionCheck) ∨
    (s = CONFIRMATION ∧ transitionsFor s = some transitionsConfirmation) ∨
    (s = COMPLETED ∧ transitionsFor s = some transitionsCompleted) ∨
    (s = ERROR ∧ transitionsFor s = some transitionsError) := by
  by_cases h1 : s = GREETING
  · subst h1; exact Or.inr (Or.inl ⟨rfl, rfl⟩)
  by_cases h2 : s = INTENT_RECOGNITION
  · subst h2; exact Or.inr (Or.inr (Or.inl ⟨rfl, rfl⟩))
  by_cases h3 : s = IDENTITY_VERIFICATION
  · subst h3; exact Or.inr (Or.inr (Or.inr (Or.inl ⟨rfl, rfl⟩)))
  by_cases h4 : s = DATE_OF_BIRTH
  · subst h4; exact Or.inr (Or.inr (Or.inr (Or.inr (Or.inl ⟨rfl, rfl⟩))))
  by_cases h5 : s = PRESCRIPTION_REVIEW
  · subst h5
    exact Or.inr (Or.inr (Or.inr (Or.inr (Or.inr (Or.inl ⟨rfl, rfl⟩)))))
  by_cases h6 : s = PRESCRIPTION_SELECTION
  · subst h6
    exact Or.inr (Or.inr (Or.inr (Or.inr (Or.inr (Or.inr (Or.inl ⟨rfl, rfl⟩))))))
  by_cases h7 : s = INTERACTION_CHECK
  · subst h7
    exact Or.inr (Or.inr (Or.inr (Or.inr (Or.inr (Or.inr (Or.inr (Or.inl ⟨rfl, rfl⟩)))))))
  by_cases h8 : s = CONFIRMATION
  · subst h8
    exact Or.inr (Or.inr (Or.inr (Or.inr (Or.inr (Or.inr (Or.inr (Or.inr (Or.inl ⟨rfl, rfl⟩))))))))
  by_cases h9 : s = COMPLETED
  · subst h9
    exact Or.inr (Or.inr (Or.inr (Or.inr (Or.inr (Or.inr (Or.inr (Or.inr (Or.inr (Or.inl ⟨rfl, rfl⟩)))))))))
  by_cases h10 : s = ERROR
  · subst h10
    exact Or.inr (Or.inr (Or.inr (Or.inr (Or.inr (Or.inr (Or.inr (Or.inr (Or.inr (Or.inr ⟨rfl, rfl⟩)))))))))
  refine Or.inl ?_
  unfold transitionsFor
  have b1 : (s == GREETING) = false := beq_eq_false_iff_ne.mpr h1
  have b2 : (s == INTENT_RECOGNITION) = false := beq_eq_false_iff_ne.mpr h2
  have b3 : (s == IDENTITY_VERIFICATION) = false := beq_eq_false_iff_ne.mpr h3
  have b4 : (s == DATE_OF_BIRTH) = false := beq_eq_false_iff_ne.mpr h4
  have b5 : (s == PRESCRIPTION_REVIEW) = false := beq_eq_false_iff_ne.mpr h5
  have b6 : (s == PRESCRIPTION_SELECTION) = false := beq_eq_false_iff_ne.mpr h6
  have b7 : (s == INTERACTION_CHECK) = false := beq_eq_false_iff_ne.mpr h7
  have b8 : (s == CONFIRMATION) = false := beq_eq_false_iff_ne.mpr h8
  have b9 : (s == COMPLETED) = false := beq_eq_false_iff_ne.mpr h9
  have b10 : (s == ERROR) = false := beq_eq_false_iff_ne.mpr h10
  simp only [b1, b2, b3, b4, b5, b6, b7, b8, b9, b10, Bool.false_eq_true, if_false]

/-- Targets of the GREETING table. -/
theorem transitionsGreeting_target (e ns : String)
    (h : transitionsGreeting e = some ns) : ns ∈ statesList := by
  unfold transitionsGreeting at h
  split_ifs at h <;> (injection h with h; subst h; decide)

theorem transitionsIntentRecognition_target (e ns : String)
    (h : transitionsIntentRecognition e = some ns) : ns ∈ statesList := by
  unfold transitionsIntentRecognition at h
  split_ifs at h <;> (injection h with h; subst h; decide)

theorem transitionsIdentityVerification_target (e ns : String)
    (h : transitionsIdentityVerification e = some ns) : ns ∈ statesList := by
  unfold transitionsIdentityVerification at h
  split_ifs at h <;> (injection h with h; subst h; decide)

theorem transitionsDateOfBirth_target (e ns : String)
    (h : transitionsDateOfBirth e = some ns) : ns ∈ statesList := by
  unfold transitionsDateOfBirth at h
  split_ifs at h <;> (injection h with h; subst h; decide)

theorem transitionsPrescriptionReview_target (e ns : String)
    (h : transitionsPrescriptionReview e = some ns) : ns ∈ statesList := by
  unfold transitionsPrescriptionReview at h
  split_ifs at h <;> (injection h with h; subst h; decide)

theorem transitionsPrescriptionSelection_target (e ns : String)
    (h : transitionsPrescriptionSelection e = some ns) : ns ∈ statesList := by
  unfold transitionsPrescriptionSelection at h
  split_ifs at h <;> (injection h with h; subst h; decide)

theorem transitionsInteractionCheck_target (e ns : String)
    (h : transitionsInteractionCheck e = some ns) : ns ∈ statesList := by
  unfold transitionsInteractionCheck at h
  split_ifs at h <;> (injection h with h; subst h; decide)

theorem transitionsConfirmation_target (e ns : String)
    (h : transitionsConfirmation e = some ns) : ns ∈ statesList := by
  unfold transitionsConfirmation at h
  split_ifs at h <;> (injection h with h; subst h; decide)

theorem transitionsCompleted_target (e ns : String)
    (h : transitionsCompleted e = some ns) : ns ∈ statesList := by
  unfold transitionsCompleted at h
  split_ifs at h <;> (injection h with h; subst h; decide)

theorem transitionsError_target (e ns : String)
    (h : transitionsError e = some ns) : ns ∈ statesList := by
  unfold transitionsError at h
  split_ifs at h <;> (injection h with h; subst h; decide)

/-- A state that has a transition table is one of the ten enumerated states. -/
theorem transitionsFor_mem_statesList (s : String) (tbl : String → Option String)
    (h : transitionsFor s = some tbl) : s ∈ statesList := by
  rcases transitionsFor_cases s with h0 | ⟨rfl, _⟩ | ⟨rfl, _⟩ | ⟨rfl, _⟩ | ⟨rfl, _⟩ |
    ⟨rfl, _⟩ | ⟨rfl, _⟩ | ⟨rfl, _⟩ | ⟨rfl, _⟩ | ⟨rfl, _⟩ | ⟨rfl, _⟩
  · rw [h0] at h; cases h
  all_goals decide

/-- Every state stored in a transition table is one of the ten enumerated
states. -/
theorem transitionsFor_target_mem (s e ns : String) (tbl : String → Option String)
    (h : transitionsFor s = some tbl) (h2 : tbl e = some ns) : ns ∈ statesList := by
  rcases transitionsFor_cases s with h0 | ⟨_, h0⟩ | ⟨_, h0⟩ | ⟨_, h0⟩ | ⟨_, h0⟩ |
    ⟨_, h0⟩ | ⟨_, h0⟩ | ⟨_, h0⟩ | ⟨_, h0⟩ | ⟨_, h0⟩ | ⟨_, h0⟩ <;>
    rw [h0] at h
  · cases h
  all_goals (injection h with h; subst h)
  · exact transitionsGreeting_target e ns h2
  · exact transitionsIntentRecognition_target e ns h2
  · exact transitionsIdentityVerification_target e ns h2
  · exact transitionsDateOfBirth_target e ns h2
  · exact transitionsPrescriptionReview_target e ns h2
  · exact transitionsPrescriptionSelection_target e ns h2
  · exact transitionsInteractionCheck_target e ns h2
  · exact transitionsConfirmation_target e ns h2
  · exact transitionsCompleted_target e ns h2
  · exact transitionsError_target e ns h2

theorem transition_eq_of_noTable (s e : String) (ctx : SessionCtx)
    (h : transitionsFor s = none) :
    transition s e ctx = ⟨ERROR, "error_no_transitions", none⟩ := by
  unfold transition; rw [h]

theorem transition_eq_of_unmapped (s e : String) (ctx : SessionCtx)
    (tbl : String → Option String)
    (h : transitionsFor s = some tbl) (h2 : tbl e = none) :
    transition s e ctx =
      ⟨if e == ("unclear") then s else ERROR, "stay_or_error", none⟩ := by
  unfold transition; rw [h]; simp only []; rw [h2]

theorem transition_eq_of_mapped (s e ns : String) (ctx : SessionCtx)
    (tbl : String → Option String)
    (h : transitionsFor s = some tbl) (h2 : tbl e = some ns) :
    transition s e ctx =
      ⟨ns, getActionForTransition s ns, some (updateContext s ns e ctx)⟩ := by
  unfold transition; rw [h]; simp only []; rw [h2]

/-- The state returned by `transition` always lies in the enumerated set. -/
theorem transition_state_mem (s e : String) (ctx : SessionCtx) :
    (transition s e ctx).state ∈ statesList := by
  rcases h : transitionsFor s with _ | tbl
  · rw [transition_eq_of_noTable s e ctx h]; decide
  · rcases h2 : tbl e with _ | ns
    · rw [transition_eq_of_unmapped s e ctx tbl h h2]
      rcases Bool.eq_false_or_eq_true (e == ("unclear")) with hu | hu
      · simp only [hu, if_true]
        exact transitionsFor_mem_statesList s tbl h
      · simp only [hu, Bool.false_eq_true, if_false]
        decide
    · rw [transition_eq_of_mapped s e ns ctx tbl h h2]
      exact transitionsFor_target_mem s e ns tbl h h2

end ConversationStateMachine

/-! ## Prototype-chain lookup: the full JS semantics of the two table reads

`this.transitions[currentState]` and `possibleTransitions[event]` are JS
property reads on plain object literals.  A key that is not an own key is
looked up along the prototype chain, so the inherited `Object.prototype`
members (`constructor`, `toString`, `hasOwnProperty`, ...) and the
`__proto__` accessor are found and are truthy; a function found this way
exposes the `Function.prototype` chain on the second read, including the
restricted `caller` and `arguments` accessors, which throw a TypeError.
The own-key model `transition` above is the abstraction used by the
orchestrator embedding; this section models the full lookup and relates
the two (`jsTransition_agrees`). -/

namespace ProtoChain

open ConversationStateMachine

/-- The JS values reachable from the two property reads in `transition`. -/
inductive JsVal where
  | str (s : String)
  | num (n : Nat)
  | fnObjectCtor
  | fnBuiltin (name : String) (arity : Nat)
  | objectProto
  | functionProto
  | jsNull
  | undefined
deriving DecidableEq

/-- JS truthiness of these values. -/
def jsvTruthy : JsVal → Bool
  | .str s => !(s == (""))
  | .num n => !(n == 0)
  | .jsNull => false
  | .undefined => false
  | _ => true

/-- JS `ToString` of these values (the V8 rendering for functions). -/
def jsvToString : JsVal → String
  | .str s => s
  | .num n => jsNumToString n
  | .fnObjectCtor => "function Object() \x7b [native code] \x7d"
  | .fnBuiltin name _ => ("function ") ++ name ++ ("() \x7b [native code] \x7d")
  | .objectProto => "[object Object]"
  | .functionProto => "function () \x7b [native code] \x7d"
  | .jsNull => "null"
  | .undefined => "undefined"

/-- The own data members of `Object.prototype`, with their arities. -/
def objectProtoProps (k : String) : Option JsVal :=
  if k == ("constructor") then some .fnObjectCtor
  else if k == ("hasOwnProperty") then some (.fnBuiltin ("hasOwnProperty") 1)
  else if k == ("isPrototypeOf") then some (.fnBuiltin ("isPrototypeOf") 1)
  else if k == ("propertyIsEnumerable") then some (.fnBuiltin ("propertyIsEnumerable") 1)
  else if k == ("toLocaleString") then some (.fnBuiltin ("toLocaleString") 0)
  else if k == ("toString") then some (.fnBuiltin ("toString") 0)
  else if k == ("valueOf") then some (.fnBuiltin ("valueOf") 0)
  else if k == ("__defineGetter__") then some (.fnBuiltin ("__defineGetter__") 2)
  else if k == ("__defineSetter__") then some (.fnBuiltin ("__defineSetter__") 2)
  else if k == ("__lookupGetter__") then some (.fnBuiltin ("__lookupGetter__") 1)
  else if k == ("__lookupSetter__") then some (.fnBuiltin ("__lookupSetter__") 1)
  else none

/-- `k` hits the prototype chain of a plain object literal: an inherited
`Object.prototype` member or the `__proto__` accessor. -/
def protoKey (k : String) : Bool :=
  k == ("__proto__") || (objectProtoProps k).isSome

/-- Property read on a plain object literal whose own entries are the
string-valued map `own` (the rows of the transitions table): an own key
wins, otherwise the read walks to `Object.prototype`; `__proto__` is an
accessor there returning the prototype of the receiver, here
`Object.prototype` itself. -/
def rowGet (own : String → Option String) (k : String) : JsVal :=
  match own k with
  | some v => .str v
  | none =>
    if k == ("__proto__") then .objectProto
    else (objectProtoProps k).getD .undefined

/-- Own static members of the `Object` constructor (the ES2022 core; the
exact roster grows with the engine version, which no proved statement
depends on). -/
def objectStatics (k : String) : Option JsVal :=
  if k == ("assign") then some (.fnBuiltin ("assign") 2)
  else if k == ("create") then some (.fnBuiltin ("create") 2)
  else if k == ("defineProperties") then some (.fnBuiltin ("defineProperties") 2)
  else if k == ("defineProperty") then some (.fnBuiltin ("defineProperty") 3)
  else if k == ("entries") then some (.fnBuiltin ("entries") 1)
  else if k == ("freeze") then some (.fnBuiltin ("freeze") 1)
  else if k == ("fromEntries") then some (.fnBuiltin ("fromEntries") 1)
  else if k == ("getOwnPropertyDescriptor") then some (.fnBuiltin ("getOwnPropertyDescriptor") 2)
  else if k == ("getOwnPropertyDescriptors") then some (.fnBuiltin ("getOwnPropertyDescriptors") 1)
  else if k == ("getOwnPropertyNames") then some (.fnBuiltin ("getOwnPropertyNames") 1)
  else if k == ("getOwnPropertySymbols") then some (.fnBuiltin ("getOwnPropertySymbols") 1)
  else if k == ("getPrototypeOf") then some (.fnBuiltin ("getPrototypeOf") 1)
  else if k == ("hasOwn") then some (.fnBuiltin ("hasOwn") 2)
  else if k == ("is") then some (.fnBuiltin ("is") 2)
  else if k == ("isExtensible") then some (.fnBuiltin ("isExtensible") 1)
  else if k == ("isFrozen") then some (.fnBuiltin ("isFrozen") 1)
  else if k == ("isSealed") then some (.fnBuiltin ("isSealed") 1)
  else if k == ("keys") then some (.fnBuiltin ("keys") 1)
  else if k == ("preventExtensions") then some (.fnBuiltin ("preventExtensions") 1)
  else if k == ("seal") then some (.fnBuiltin ("seal") 1)
  else if k == ("setPrototypeOf") then some (.fnBuiltin ("setPrototypeOf") 2)
  else if k == ("values") then some (.fnBuiltin ("values") 1)
  else none

/-- Own members of `Function.prototype` other than the restricted
`caller` and `arguments` accessors (which throw on access) and its own
`name` and `length` (shadowed by the own `name` and `length` of every
concrete function). -/
def functionProtoMethods (k : String) : Option JsVal :=
  if k == ("apply") then some (.fnBuiltin ("apply") 2)
  else if k == ("bind") then some (.fnBuiltin ("bind") 1)
  else if k == ("call") then some (.fnBuiltin ("call") 1)
  else if k == ("toString") then some (.fnBuiltin ("toString") 0)
  else if k == ("constructor") then some (.fnBuiltin ("Function") 1)
  else none

/-- Property read on a built-in (strict) function with the given `name`
and `length`: own `name` and `length`, then `Function.prototype` (whose
`caller` and `arguments` accessors throw), then `Object.prototype`. -/
def builtinFnGet (name : String) (arity : Nat) (k : String) : Except Unit JsVal :=
  if k == ("name") then .ok (.str name)
  else if k == ("length") then .ok (.num arity)
  else if k == ("caller") || k == ("arguments") then .error ()
  else match functionProtoMethods k with
  | some v => .ok v
  | none =>
    if k == ("__proto__") then .ok .functionProto
    else .ok ((objectProtoProps k).getD .undefined)

/-- Property read on the `Object` constructor itself: own `name`,
`length`, `prototype` and the static members, then the
`Function.prototype` and `Object.prototype` chain. -/
def objectCtorGet (k : String) : Except Unit JsVal :=
  if k == ("name") then .ok (.str ("Object"))
  else if k == ("length") then .ok (.num 1)
  else if k == ("prototype") then .ok .objectProto
  else match objectStatics k with
  | some v => .ok v
  | none =>
    if k == ("caller") || k == ("arguments") then .error ()
    else match functionProtoMethods k with
    | some v => .ok v
    | none =>
      if k == ("__proto__") then .ok .functionProto
      else .ok ((objectProtoProps k).getD .undefined)

/-- Property read on `Object.prototype` itself: its own members; its
`__proto__` is `null`. -/
def objectProtoGet (k : String) : JsVal :=
  match objectProtoProps k with
  | some v => v
  | none => if k == ("__proto__") then .jsNull else .undefined

/-- The prototype-chain part of `this.transitions[currentState]` when
`currentState` is not one of the ten own row keys. -/
def transitionsProtoGet (k : String) : JsVal :=
  if k == ("__proto__") then .objectProto
  else (objectProtoProps k).getD .undefined

/-- Property read on second-level receivers.  The receivers reachable from
the transitions literal are functions and `Object.prototype`; the
remaining constructors never occur as receivers (primitives would be
boxed, `null` and `undefined` are filtered out by the truthiness test)
and default to `undefined`. -/
def jsGetOn : JsVal → String → Except Unit JsVal
  | .fnObjectCtor, k => objectCtorGet k
  | .fnBuiltin name arity, k => builtinFnGet name arity k
  | .objectProto, k => .ok (objectProtoGet k)
  | .functionProto, k =>
    if k == ("name") then .ok (.str (""))
    else if k == ("length") then .ok (.num 0)
    else if k == ("caller") || k == ("arguments") then .error ()
    else match functionProtoMethods k with
    | some v => .ok v
    | none =>
      if k == ("__proto__") then .ok .objectProto
      else .ok ((objectProtoProps k).getD .undefined)
  | _, _ => .ok .undefined

/-- The record returned by the full-lookup `transition`: the state slot
carries an arbitrary JS value, not necessarily a state string. -/
structure JsTransResult where
  state : JsVal
  action : String
  context : Option SessionCtx
deriving DecidableEq

/-- The `switch (toState)` of `updateContext` compares with strict
equality, so a non-string next state matches no case and the context
copy is returned unchanged. -/
def jsSwitchContext (fromState event : String) (toState : JsVal)
    (ctx : SessionCtx) : SessionCtx :=
  match toState with
  | .str t => updateContext fromState t event ctx
  | _ => ctx

/-- The tail of `transition` after `nextState = possibleTransitions[event]`:
the truthiness test, the two-way fallback, the action computation (the
template literal string-coerces a non-string next state) and the context
update. -/
def jsFinish (currentState event : String) (ctx : SessionCtx)
    (nextState : JsVal) : JsTransResult :=
  if jsvTruthy nextState then
    { state := nextState,
      action := getActionForTransition currentState (jsvToString nextState),
      context := some (jsSwitchContext currentState event nextState ctx) }
  else
    { state := if event == ("unclear") then .str currentState else .str ERROR,
      action := "stay_or_error", context := none }

/-- `transition(currentState, event, context)` with full JS property-read
semantics.  `Except` models a thrown TypeError (reading the restricted
`caller` or `arguments` accessors of a function found on the chain). -/
def jsTransition (currentState event : String) (ctx : SessionCtx) :
    Except Unit JsTransResult :=
  match transitionsFor currentState with
  | some row => .ok (jsFinish currentState event ctx (rowGet row event))
  | none =>
    let possibleTransitions := transitionsProtoGet currentState
    if jsvTruthy possibleTransitions then
      match jsGetOn possibleTransitions event with
      | .error er => .error er
      | .ok nextState => .ok (jsFinish currentState event ctx nextState)
    else
      .ok { state := .str ERROR, action := "error_no_transitions",
            context := none }

set_option maxHeartbeats 1000000 in
theorem objectProtoProps_spec (k : String) (v : JsVal)
    (h : objectProtoProps k = some v) :
    jsvTruthy v = true ∧ ∀ t : String, v ≠ JsVal.str t := by
  unfold objectProtoProps at h
  split_ifs at h <;> injection h with h <;> subst h <;>
    exact ⟨rfl, fun t ht => JsVal.noConfusion ht⟩

theorem protoKey_false_elim (e : String) (he : protoKey e = false) :
    (e == ("__proto__")) = false ∧ objectProtoProps e = none := by
  unfold protoKey at he
  constructor
  · rcases hb : (e == ("__proto__")) with _ | _
    · rfl
    · rw [hb] at he; simp at he
  · rcases hv : objectProtoProps e with _ | v
    · rfl
    · rw [hv] at he; simp at he

theorem protoKey_true_elim (e : String) (he : protoKey e = true) :
    (e == ("__proto__")) = true ∨ ∃ v, objectProtoProps e = some v := by
  unfold protoKey at he
  rcases hb : (e == ("__proto__")) with _ | _
  · rw [hb] at he
    simp only [Bool.false_or] at he
    rcases hv : objectProtoProps e with _ | v
    · rw [hv] at he; simp at he
    · exact Or.inr ⟨v, rfl⟩
  · exact Or.inl rfl

theorem statesList_ne_empty (t : String) (h : t ∈ statesList) :
    (t == ("")) = false := by
  fin_cases h <;> decide

theorem jsSwitchContext_nonstr (s e : String) (ctx : SessionCtx) (v : JsVal)
    (hv : ∀ t : String, v ≠ JsVal.str t) :
    jsSwitchContext s e v ctx = ctx := by
  cases v <;> first | rfl | exact absurd rfl (hv _)

theorem jsFinish_truthy (s e : String) (ctx : SessionCtx) (v : JsVal)
    (hv : jsvTruthy v = true) :
    jsFinish s e ctx v =
      { state := v, action := getActionForTransition s (jsvToString v),
        context := some (jsSwitchContext s e v ctx) } := by
  unfold jsFinish
  simp [hv]

theorem jsFinish_falsy (s e : String) (ctx : SessionCtx) (v : JsVal)
    (hv : jsvTruthy v = false) :
    jsFinish s e ctx v =
      { state := if e == ("unclear") then .str s else .str ERROR,
        action := "stay_or_error", context := none } := by
  unfold jsFinish
  simp [hv]

theorem jsTransition_row (s e : String) (ctx : SessionCtx)
    (row : String → Option String) (h : transitionsFor s = some row) :
    jsTransition s e ctx = .ok (jsFinish s e ctx (rowGet row e)) := by
  unfold jsTransition
  simp only [h]

theorem jsTransition_unknownState (s e : String) (ctx : SessionCtx)
    (h : transitionsFor s = none) (hs : protoKey s = false) :
    jsTransition s e ctx =
      .ok { state := .str ERROR, action := "error_no_transitions",
            context := none } := by
  obtain ⟨h1, h2⟩ := protoKey_false_elim s hs
  unfold jsTransition transitionsProtoGet
  simp [h, h1, h2, jsvTruthy]

theorem rowGet_mapped (row : String → Option String) (e t : String)
    (h : row e = some t) : rowGet row e = .str t := by
  unfold rowGet
  simp only [h]

theorem rowGet_clean (row : String → Option String) (e : String)
    (h : row e = none) (he : protoKey e = false) : rowGet row e = .undefined := by
  obtain ⟨h1, h2⟩ := protoKey_false_elim e he
  unfold rowGet
  simp [h, h1, h2]

theorem rowGet_proto (row : String → Option String) (e : String)
    (h : row e = none) (he : protoKey e = true) :
    jsvTruthy (rowGet row e) = true ∧
      ∀ t : String, rowGet row e ≠ JsVal.str t := by
  unfold rowGet
  simp only [h]
  rcases protoKey_true_elim e he with hb | ⟨v, hv⟩
  · rw [if_pos hb]
    exact ⟨rfl, fun t ht => JsVal.noConfusion ht⟩
  · have hb : (e == ("__proto__")) = false := by
      rcases hbb : (e == ("__proto__")) with _ | _
      · rfl
      · have heq : e = ("__proto__") := eq_of_beq hbb
        rw [heq] at hv
        have h0 : objectProtoProps ("__proto__") = none := rfl
        rw [h0] at hv
        exact Option.noConfusion hv
    rw [if_neg (by simp [hb])]
    rw [hv, Option.getD_some]
    exact objectProtoProps_spec e v hv

/-- On inputs free of prototype-chain collisions the full-lookup
`jsTransition` never throws and agrees with the own-key model
`transition`: the abstraction used by the orchestrator embedding is exact
there. -/
theorem jsTransition_agrees (s e : String) (ctx : SessionCtx)
    (hs : protoKey s = false) (he : protoKey e = false) :
    jsTransition s e ctx =
      .ok { state := .str (transition s e ctx).state,
            action := (transition s e ctx).action,
            context := (transition s e ctx).context } := by
  rcases hrow : transitionsFor s with _ | row
  · rw [jsTransition_unknownState s e ctx hrow hs,
        transition_eq_of_noTable s e ctx hrow]
  · rw [jsTransition_row s e ctx row hrow]
    rcases hre : row e with _ | t
    · rw [rowGet_clean row e hre he, jsFinish_falsy s e ctx JsVal.undefined rfl,
          transition_eq_of_unmapped s e ctx row hrow hre]
      rcases hu : (e == ("unclear")) with _ | _ <;> simp [hu]
    · have htm : t ∈ statesList := transitionsFor_target_mem s e t row hrow hre
      rw [rowGet_mapped row e t hre,
          jsFinish_truthy s e ctx _ (by simp [jsvTruthy, statesList_ne_empty t htm]),
          transition_eq_of_mapped s e t ctx row hrow hre]
      rfl

end ProtoChain

section StateMachineClaims

open ConversationStateMachine ProtoChain

/-- C4 counterexample, two refutations.  (1) The claim says an `unclear`
event always returns the state it was given, but GREETING maps `unclear`
to INTENT_RECOGNITION.  (2) The claim says the next state is always drawn
from the enumerated set, but the event string `constructor` is found on
the prototype chain of the GREETING row, so the mapped branch fires and
the inherited `Object` constructor function itself becomes the next
state — not a state string at all. -/
theorem claim4_counterexample :
    ((transition GREETING ("unclear") VoiceSessionManager.initialContext).state =
        INTENT_RECOGNITION ∧ INTENT_RECOGNITION ≠ GREETING) ∧
    (jsTransition GREETING ("constructor") VoiceSessionManager.initialContext =
        .ok { state := JsVal.fnObjectCtor,
              action := "continue",
              context := some VoiceSessionManager.initialContext } ∧
      ∀ t : String, JsVal.fnObjectCtor ≠ JsVal.str t) := by
  exact ⟨⟨rfl, by decide⟩, rfl, fun t ht => JsVal.noConfusion ht⟩

/-- C4 (amended): every enumerated state has a transition row.  An event
that is an own key of the row follows the table into the enumerated set.
An event that is neither an own key nor an inherited property falls back:
`unclear` keeps the current state and any other such event yields ERROR.
But an event that collides with an inherited `Object.prototype` member
takes the mapped branch with the inherited non-string value as next
state, so the returned state is not always drawn from the enumerated set
(and `unclear` is a mapped event in GREETING, so it does not always keep
the current state; see the counterexample for both). -/
theorem claim4_fallback_policy (s e : String) (ctx : SessionCtx)
    (hs : s ∈ statesList) :
    ∃ row, transitionsFor s = some row ∧
      ((∀ t, row e = some t →
          jsTransition s e ctx =
            .ok { state := JsVal.str t, action := getActionForTransition s t,
                  context := some (updateContext s t e ctx) } ∧
            t ∈ statesList) ∧
       (row e = none → protoKey e = false →
          jsTransition s e ctx =
            .ok { state := JsVal.str (if e == ("unclear") then s else ERROR),
                  action := "stay_or_error", context := none }) ∧
       (row e = none → protoKey e = true →
          ∃ v, jsTransition s e ctx =
              .ok { state := v,
                    action := getActionForTransition s (jsvToString v),
                    context := some ctx } ∧
            ∀ t : String, v ≠ JsVal.str t)) := by
  have hsome : ∃ row, transitionsFor s = some row := by
    fin_cases hs
    · exact ⟨transitionsGreeting, rfl⟩
    · exact ⟨transitionsIntentRecognition, rfl⟩
    · exact ⟨transitionsIdentityVerification, rfl⟩
    · exact ⟨transitionsDateOfBirth, rfl⟩
    · exact ⟨transitionsPrescriptionReview, rfl⟩
    · exact ⟨transitionsPrescriptionSelection, rfl⟩
    · exact ⟨transitionsInteractionCheck, rfl⟩
    · exact ⟨transitionsConfirmation, rfl⟩
    · exact ⟨transitionsCompleted, rfl⟩
    · exact ⟨transitionsError, rfl⟩
  obtain ⟨row, hrow⟩ := hsome
  refine ⟨row, hrow, ?_, ?_, ?_⟩
  · intro t ht
    have htm : t ∈ statesList := transitionsFor_target_mem s e t row hrow ht
    rw [jsTransition_row s e ctx row hrow, rowGet_mapped row e t ht,
        jsFinish_truthy s e ctx _ (by simp [jsvTruthy, statesList_ne_empty t htm])]
    exact ⟨rfl, htm⟩
  · intro hnone he
    rw [jsTransition_row s e ctx row hrow, rowGet_clean row e hnone he,
        jsFinish_falsy s e ctx JsVal.undefined rfl]
    rcases hu : (e == ("unclear")) with _ | _ <;> simp [hu]
  · intro hnone he
    obtain ⟨htr, hnostr⟩ := rowGet_proto row e hnone he
    refine ⟨rowGet row e, ?_, hnostr⟩
    rw [jsTransition_row s e ctx row hrow, jsFinish_truthy s e ctx _ htr,
        jsSwitchContext_nonstr s e ctx _ hnostr]

/-- Witness for C4 (amended) at state CONFIRMATION and event `unclear`,
which is unmapped there and is not an inherited property. -/
theorem claim4_witness :
    ∃ row, transitionsFor CONFIRMATION = some row ∧
      ((∀ t, row ("unclear") = some t →
          jsTransition CONFIRMATION ("unclear") VoiceSessionManager.initialContext =
            .ok { state := JsVal.str t,
                  action := getActionForTransition CONFIRMATION t,
                  context := some (updateContext CONFIRMATION t ("unclear")
                    VoiceSessionManager.initialContext) } ∧
            t ∈ statesList) ∧
       (row ("unclear") = none → protoKey ("unclear") = false →
          jsTransition CONFIRMATION ("unclear") VoiceSessionManager.initialContext =
            .ok { state := JsVal.str
                    (if ("unclear" : String) == ("unclear") then CONFIRMATION else ERROR),
                  action := "stay_or_error", context := none }) ∧
       (row ("unclear") = none → protoKey ("unclear") = true →
          ∃ v, jsTransition CONFIRMATION ("unclear") VoiceSessionManager.initialContext =
              .ok { state := v,
                    action := getActionForTransition CONFIRMATION (jsvToString v),
                    context := some VoiceSessionManager.initialContext } ∧
            ∀ t : String, v ≠ JsVal.str t)) :=
  claim4_fallback_policy CONFIRMATION ("unclear") VoiceSessionManager.initialContext
    (by decide)

/-- C9 counterexample: `transition` is not total with the claimed
containment over arbitrary strings.  The state string `constructor` hits
`Object.prototype.constructor` on the prototype chain of the transitions
literal, which is truthy, so the no-table branch is skipped; the event
`name` then reads the own `name` of the `Object` constructor and the
returned state is the string `Object` — outside the enumerated set and
different from the given state.  Worse, the event `arguments` reads the
restricted `Function.prototype.arguments` accessor and throws. -/
theorem claim9_counterexample :
    jsTransition ("constructor") ("name") VoiceSessionManager.initialContext =
      .ok { state := JsVal.str ("Object"), action := "continue",
            context := some VoiceSessionManager.initialContext } ∧
    ("Object" : String) ∉ statesList ∧
    ("Object" : String) ≠ ("constructor") ∧
    jsTransition ("constructor") ("arguments") VoiceSessionManager.initialContext =
      .error () := by
  exact ⟨rfl, by decide, by decide, rfl⟩

/-- C9 (amended): when the current-state string does not collide with an
inherited property of the transitions literal, `transition` returns a
result without throwing for every event string; if the event string is
also collision-free, the returned state is a string that is the given
current state (only via the `unclear` fallback) or a member of the
ten-state enumerated set; and a collision-free state with no transition
row yields ERROR with the `error_no_transitions` action.  Over fully
arbitrary strings the original claim fails: prototype-chain hits return
non-state values and can even throw (see the counterexample). -/
theorem claim9_transition_total (s e : String) (ctx : SessionCtx)
    (hs : protoKey s = false) :
    (∃ r : JsTransResult, jsTransition s e ctx = .ok r ∧
      (protoKey e = false →
        ∃ t : String, r.state = JsVal.str t ∧
          (t ∈ statesList ∨ (t = s ∧ e = ("unclear"))))) ∧
    (transitionsFor s = none →
      jsTransition s e ctx =
        .ok { state := JsVal.str ERROR, action := "error_no_transitions",
              context := none }) := by
  constructor
  · rcases hrow : transitionsFor s with _ | row
    · exact ⟨_, jsTransition_unknownState s e ctx hrow hs,
        fun _ => ⟨ERROR, rfl, Or.inl (by decide)⟩⟩
    · refine ⟨jsFinish s e ctx (rowGet row e),
        jsTransition_row s e ctx row hrow, ?_⟩
      intro he
      rcases hre : row e with _ | t
      · rw [rowGet_clean row e hre he, jsFinish_falsy s e ctx JsVal.undefined rfl]
        rcases hu : (e == ("unclear")) with _ | _
        · exact ⟨ERROR, by simp [hu], Or.inl (by decide)⟩
        · exact ⟨s, by simp [hu], Or.inr ⟨rfl, eq_of_beq hu⟩⟩
      · have htm : t ∈ statesList := transitionsFor_target_mem s e t row hrow hre
        rw [rowGet_mapped row e t hre,
            jsFinish_truthy s e ctx _ (by simp [jsvTruthy, statesList_ne_empty t htm])]
        exact ⟨t, rfl, Or.inl htm⟩
  · intro hrow
    exact jsTransition_unknownState s e ctx hrow hs

/-- Witness for C9 (amended): a state string outside the enumerated set
and off the prototype chain, with a collision-free event. -/
theorem claim9_witness :
    (∃ r : JsTransResult,
      jsTransition ("bogus") ("anything") VoiceSessionManager.initialContext = .ok r ∧
      (protoKey ("anything") = false →
        ∃ t : String, r.state = JsVal.str t ∧
          (t ∈ statesList ∨ (t = ("bogus") ∧ ("anything" : String) = ("unclear"))))) ∧
    (transitionsFor ("bogus") = none →
      jsTransition ("bogus") ("anything") VoiceSessionManager.initialContext =
        .ok { state := JsVal.str ERROR, action := "error_no_transitions",
              context := none }) :=
  claim9_transition_total ("bogus") ("anything") VoiceSessionManager.initialContext
    (by decide)

end StateMachineClaims

/-! ## Confirmation-code format (C8) -/

section ConfirmationCode

theorem strData_append (a b : String) : (a ++ b).data = a.data ++ b.data := rfl

theorem decDigits_lt (n : Nat) (h : n < 10) : decDigits n = [digitChar n] := by
  rw [decDigits]; simp [h]

theorem decDigits_ge (n : Nat) (h : ¬ n < 10) :
    decDigits n = decDigits (n / 10) ++ [digitChar (n % 10)] := by
  rw [decDigits]; simp [h]

theorem digitChar_isDigit (d : Nat) (h : d < 10) : (digitChar d).isDigit = true := by
  interval_cases d <;> decide

theorem decDigits_forall_isDigit (n : Nat) : ∀ c ∈ decDigits n, c.isDigit = true := by
  induction n using Nat.strong_induction_on with
  | _ n ih =>
    by_cases h : n < 10
    · rw [decDigits_lt n h]
      intro c hc
      simp only [List.mem_singleton] at hc
      subst hc
      exact digitChar_isDigit n h
    · rw [decDigits_ge n h]
      intro c hc
      rcases List.mem_append.mp hc with hc | hc
      · exact ih (n / 10) (Nat.div_lt_self (by omega) (by omega)) c hc
      · simp only [List.mem_singleton] at hc
        subst hc
        exact digitChar_isDigit (n % 10) (Nat.mod_lt n (by omega))

theorem decDigits_length_pos (n : Nat) : 1 ≤ (decDigits n).length := by
  by_cases h : n < 10
  · rw [decDigits_lt n h]; simp
  · rw [decDigits_ge n h]; simp

theorem decDigits_length_ge (k : Nat) : ∀ n : Nat, 10 ^ k ≤ n →
    k + 1 ≤ (decDigits n).length := by
  induction k with
  | zero => intro n _; exact decDigits_length_pos n
  | succ k ih =>
    intro n h
    have hpow : (10 : Nat) ≤ 10 ^ (k + 1) := by
      calc (10 : Nat) = 10 ^ 1 := by norm_num
      _ ≤ 10 ^ (k + 1) := Nat.pow_le_pow_right (by norm_num) (by omega)
    have h10 : ¬ n < 10 := by omega
    rw [decDigits_ge n h10, List.length_append]
    have hdiv : 10 ^ k ≤ n / 10 := by
      rw [Nat.le_div_iff_mul_le (by norm_num)]
      calc 10 ^ k * 10 = 10 ^ (k + 1) := by ring
      _ ≤ n := h
    have := ih (n / 10) hdiv
    simp only [List.length_singleton]
    omega

theorem decDigits_length_le (k : Nat) (hk : 1 ≤ k) : ∀ n : Nat, n < 10 ^ k →
    (decDigits n).length ≤ k := by
  induction k with
  | zero => omega
  | succ k ih =>
    intro n h
    by_cases hlt : n < 10
    · rw [decDigits_lt n hlt]; simp
    · have hk1 : 1 ≤ k := by
        rcases Nat.eq_zero_or_pos k with rfl | hpos
        · simp at h; omega
        · exact hpos
      rw [decDigits_ge n hlt, List.length_append]
      have hdiv : n / 10 < 10 ^ k := by
        rw [Nat.div_lt_iff_lt_mul (by norm_num)]
        calc n < 10 ^ (k + 1) := h
        _ = 10 ^ k * 10 := by ring
      have := ih hk1 (n / 10) hdiv
      simp only [List.length_singleton]
      omega

/-- C8: every confirmation code generated for a realistic clock value
(`Date.now()` has at least six decimal digits) and a random component below
1000 (the range of `Math.floor(Math.random() * 1000)`) is exactly `RX`
followed by nine decimal digits: the six-digit time suffix and the
three-digit zero-padded random part. -/
theorem claim8_confirmation_format (t r : Nat) (ht : 100000 ≤ t) (hr : r < 1000) :
    ∃ ds : List Char, (generateConfirmationNumber t r).data = 'R' :: 'X' :: ds ∧
      ds.length = 9 ∧ ∀ c ∈ ds, c.isDigit = true := by
  have hlen6' : 6 ≤ (decDigits t).length := by
    have := decDigits_length_ge 5 t (by norm_num; omega)
    omega
  refine ⟨(jsSliceLastSix (jsNumToString t)).data ++ (jsPadStart3 (jsNumToString r)).data,
    ?_, ?_, ?_⟩
  · show (("RX" ++ jsSliceLastSix (jsNumToString t)) ++ jsPadStart3 (jsNumToString r)).data = _
    rw [strData_append, strData_append, List.append_assoc]
    rfl
  · show ((decDigits t).drop ((decDigits t).length - 6) ++
      (List.replicate (3 - (decDigits r).length) '0' ++ decDigits r)).length = 9
    rw [List.length_append, List.length_drop, List.length_append, List.length_replicate]
    have hle3 : (decDigits r).length ≤ 3 :=
      decDigits_length_le 3 (by norm_num) r (by norm_num; omega)
    omega
  · intro c hc
    rcases List.mem_append.mp hc with hc | hc
    · exact decDigits_forall_isDigit t c (List.mem_of_mem_drop hc)
    · rcases List.mem_append.mp hc with hc | hc
      · have := List.eq_of_mem_replicate hc
        subst this
        decide
      · exact decDigits_forall_isDigit r c hc

/-- Witness for C8 at a concrete timestamp and random value. -/
theorem claim8_witness :
    ((100000 : Nat) ≤ 1726000000000 ∧ (7 : Nat) < 1000) ∧
    ∃ ds : List Char,
      (generateConfirmationNumber 1726000000000 7).data = 'R' :: 'X' :: ds ∧
      ds.length = 9 ∧ ∀ c ∈ ds, c.isDigit = true :=
  ⟨⟨by norm_num, by norm_num⟩,
   claim8_confirmation_format 1726000000000 7 (by norm_num) (by norm_num)⟩

end ConfirmationCode

/-! ## Orchestrator handler lemmas -/

section HandlerLemmas

open ConversationStateMachine VoiceSessionManager

theorem synthesizeAndSendAudio_fst (s : Session) (o : Oracle) :
    (synthesizeAndSendAudio s o).1 =
      { s with context := { s.context with isSpeaking := false } } := rfl

theorem sendResponse_fst (s : Session) (text : String) (o : Oracle) :
    (sendResponse s text o).1 =
      { s with context :=
          { s.context with
              history := s.context.history ++ [⟨"assistant", text, o.now⟩],
              isSpeaking := false } } := rfl

theorem sendResponse_snd (s : Session) (text : String) (o : Oracle) :
    Msg.transcript ("assistant") text ∈ (sendResponse s text o).2 := by
  unfold sendResponse
  simp

end HandlerLemmas

/-! ## Barge-in (C3) -/

section BargeIn

open ConversationStateMachine VoiceSessionManager

/-- C3: for every session with `isSpeaking = true`, delivering an audio chunk
factors as the interrupt step followed by the append step: the intermediate
session produced by `handleInterrupt` has `isSpeaking = false` while its
audio buffer is still untouched, and only then is the chunk appended.  The
emitted trace has the `interrupted` notification before the recording
status. -/
theorem claim3_barge_in (s : Session) (audioData : List Nat) (now : Nat)
    (h : s.context.isSpeaking = true) :
    ∃ sMid,
      handleInterruptSession { s with lastActivity := now } = (sMid, [Msg.interrupted]) ∧
      sMid.context.isSpeaking = false ∧
      sMid.context.audioBuffer = s.context.audioBuffer ∧
      handleAudioChunk s audioData now =
        ({ sMid with context :=
            { sMid.context with
                audioBuffer := sMid.context.audioBuffer ++ audioData,
                isRecording := true } },
         [Msg.interrupted, Msg.recording_status true]) := by
  refine ⟨{ s with lastActivity := now, context := { s.context with isSpeaking := false } }, rfl, rfl, rfl, ?_⟩
  unfold handleAudioChunk handleInterruptSession
  simp [h]

/-- Witness for C3 at a concrete speaking session. -/
theorem claim3_witness :
    ∃ sMid,
      handleInterruptSession
          { id := "s1", startTime := 0, lastActivity := 7, state := GREETING,
            context := { initialContext with isSpeaking := true } } =
        (sMid, [Msg.interrupted]) ∧
      sMid.context.isSpeaking = false ∧
      sMid.context.audioBuffer =
        ({ initialContext with isSpeaking := true } : SessionCtx).audioBuffer ∧
      handleAudioChunk
          { id := "s1", startTime := 0, lastActivity := 0, state := GREETING,
            context := { initialContext with isSpeaking := true } } [1, 2, 3] 7 =
        ({ sMid with context :=
            { sMid.context with
                audioBuffer := sMid.context.audioBuffer ++ [1, 2, 3],
                isRecording := true } },
         [Msg.interrupted, Msg.recording_status true]) :=
  claim3_barge_in
    { id := "s1", startTime := 0, lastActivity := 0, state := GREETING,
      context := { initialContext with isSpeaking := true } } [1, 2, 3] 7 rfl

end BargeIn

/-! ## Unknown-session handling (C10) -/

section UnknownSession

open ConversationStateMachine VoiceSessionManager

/-- C10: delivering an interrupt for an unknown session id is a silent no-op
(no error message, registry unchanged), while an audio chunk, an
end-of-utterance or a text input for an unknown id leaves the registry
unchanged and reports `Session not found` to the transport. -/
theorem claim10_unknown_session (sessions : List (String × Session))
    (sessionId : String) (audioData : List Nat) (text : String) (o : Oracle)
    (h : sessions.lookup sessionId = none) :
    handleMessage sessions (.interrupt sessionId) = (sessions, []) ∧
    handleMessage sessions (.audio_chunk sessionId audioData o) =
      (sessions, [Msg.errorMessage ("Session not found")]) ∧
    handleMessage sessions (.end_audio sessionId o) =
      (sessions, [Msg.errorMessage ("Session not found")]) ∧
    handleMessage sessions (.text_input sessionId text o) =
      (sessions, [Msg.errorMessage ("Session not found")]) := by
  refine ⟨?_, ?_, ?_, ?_⟩ <;> simp [handleMessage, h]

/-- Witness for C10 on the empty registry. -/
theorem claim10_witness :
    handleMessage [] (.interrupt ("nope")) = ([], []) ∧
    handleMessage [] (.audio_chunk ("nope") [1] Fixtures.oBase) =
      ([], [Msg.errorMessage ("Session not found")]) ∧
    handleMessage [] (.end_audio ("nope") Fixtures.oBase) =
      ([], [Msg.errorMessage ("Session not found")]) ∧
    handleMessage [] (.text_input ("nope") ("hi") Fixtures.oBase) =
      ([], [Msg.errorMessage ("Session not found")]) :=
  claim10_unknown_session [] ("nope") [1] ("hi") Fixtures.oBase rfl

end UnknownSession

/-! ## End-of-utterance handling (C7) -/

section EndAudio

open ConversationStateMachine VoiceSessionManager

/-- C7 counterexample: on end-of-utterance with an empty audio buffer the
orchestrator emits no re-prompt at all — the only outbound message is the
recording status — contradicting the claim that a "didn\x27t catch that"
re-prompt is emitted for an empty buffer. -/
theorem claim7_counterexample :
    (handleEndAudio (startSession ("s1") Fixtures.oBase).1 Fixtures.oBase).2 =
      [Msg.recording_status false] ∧
    Msg.transcript ("assistant")
        ("I didn\x27t catch that. Could you please speak a bit louder or repeat what you said?") ∉
      (handleEndAudio (startSession ("s1") Fixtures.oBase).1 Fixtures.oBase).2 ∧
    (handleEndAudio (startSession ("s1") Fixtures.oBase).1 Fixtures.oBase).1.state =
      (startSession ("s1") Fixtures.oBase).1.state := by
  refine ⟨rfl, by decide, rfl⟩

/-- C7 (amended): on end-of-utterance, an empty audio buffer produces no STT
call and no re-prompt — the handler output does not depend on the STT oracle,
the dialogue state and history are unchanged, and the only outbound message
is the recording status.  A non-empty buffer is transcribed, and when the
transcript comes back empty the "didn\x27t catch that" re-prompt is emitted
while the dialogue state stays unchanged. -/
theorem claim7_end_audio (s : Session) (o o2 : Oracle) :
    (s.context.audioBuffer = [] →
      (handleEndAudio s { o with now := o2.now } = handleEndAudio s o2 ∧
       (handleEndAudio s o).1.state = s.state ∧
       (handleEndAudio s o).1.context.history = s.context.history ∧
       (handleEndAudio s o).2 = [Msg.recording_status false])) ∧
    (s.context.audioBuffer ≠ [] → o.stt = .ok ("") →
      ((handleEndAudio s o).1.state = s.state ∧
       Msg.transcript ("assistant")
           ("I didn\x27t catch that. Could you please speak a bit louder or repeat what you said?") ∈
         (handleEndAudio s o).2)) := by
  constructor
  · intro hb
    unfold handleEndAudio
    simp [hb]
  · intro hb hstt
    have hpos : s.context.audioBuffer.length > 0 := by
      cases hbuf : s.context.audioBuffer with
      | nil => exact absurd hbuf hb
      | cons a l => simp [hbuf]
    unfold handleEndAudio handleNoTranscription
    simp only [hpos, if_true, hstt]
    constructor
    · simp [sendResponse_fst]
    · simp [sendResponse]

/-- Witness for C7 (amended): the empty-buffer part at a fresh session and
the empty-transcript part at a session holding one buffered byte. -/
theorem claim7_witness :
    ((handleEndAudio (startSession ("s1") Fixtures.oBase).1
          { Fixtures.oBase with now := Fixtures.oBase.now } =
        handleEndAudio (startSession ("s1") Fixtures.oBase).1 Fixtures.oBase ∧
      (handleEndAudio (startSession ("s1") Fixtures.oBase).1 Fixtures.oBase).1.state =
        (startSession ("s1") Fixtures.oBase).1.state ∧
      (handleEndAudio (startSession ("s1") Fixtures.oBase).1 Fixtures.oBase).1.context.history =
        (startSession ("s1") Fixtures.oBase).1.context.history ∧
      (handleEndAudio (startSession ("s1") Fixtures.oBase).1 Fixtures.oBase).2 =
        [Msg.recording_status false]) ∧
     ((handleEndAudio
          { id := "s2", startTime := 0, lastActivity := 0, state := GREETING,
            context := { initialContext with audioBuffer := [1] } }
          Fixtures.oBase).1.state =
        ({ id := "s2", startTime := 0, lastActivity := 0, state := GREETING,
           context := { initialContext with audioBuffer := [1] } } : Session).state ∧
      Msg.transcript ("assistant")
          ("I didn\x27t catch that. Could you please speak a bit louder or repeat what you said?") ∈
        (handleEndAudio
          { id := "s2", startTime := 0, lastActivity := 0, state := GREETING,
            context := { initialContext with audioBuffer := [1] } }
          Fixtures.oBase).2)) :=
  ⟨(claim7_end_audio (startSession ("s1") Fixtures.oBase).1 Fixtures.oBase Fixtures.oBase).1 rfl,
   (claim7_end_audio
      { id := "s2", startTime := 0, lastActivity := 0, state := GREETING,
        context := { initialContext with audioBuffer := [1] } }
      Fixtures.oBase Fixtures.oBase).2 (by decide) rfl⟩

end EndAudio

/-! ## Prescription listing (C5) -/

section ListPrescriptions

open ConversationStateMachine VoiceSessionManager

/-- C5: with a verified patient on the session and a successful database
read, `listPrescriptions` retains exactly the selectable rows (expiry
strictly after now and refills-remaining strictly positive).  When no row is
selectable it responds with the contact-your-doctor message, leaves the
dialogue state unchanged and leaves the stored eligible list untouched;
otherwise it stores exactly the filtered list, again without a state
change. -/
theorem claim5_list_prescriptions (s : Session) (pt : Patient)
    (rows : List Prescription) (o : Oracle)
    (hp : s.context.patient = some pt) (hdb : o.dbPrescriptions = .ok rows) :
    (∀ rx, rx ∈ rows.filter (fun rx =>
        decide ((o.now : Int) < rx.expires_date) && decide ((0 : Int) < rx.refills_remaining)) ↔
      rx ∈ rows ∧ (o.now : Int) < rx.expires_date ∧ (0 : Int) < rx.refills_remaining) ∧
    (rows.filter (fun rx =>
        decide ((o.now : Int) < rx.expires_date) && decide ((0 : Int) < rx.refills_remaining)) = [] →
      ((listPrescriptions s o).1.context.prescriptions = s.context.prescriptions ∧
       (listPrescriptions s o).1.state = s.state ∧
       Msg.transcript ("assistant")
           ("I don\x27t see any prescriptions available for refill at this time. You may need to contact your doctor for new prescriptions.") ∈
         (listPrescriptions s o).2)) ∧
    (rows.filter (fun rx =>
        decide ((o.now : Int) < rx.expires_date) && decide ((0 : Int) < rx.refills_remaining)) ≠ [] →
      ((listPrescriptions s o).1.context.prescriptions =
         some (rows.filter (fun rx =>
           decide ((o.now : Int) < rx.expires_date) && decide ((0 : Int) < rx.refills_remaining))) ∧
       (listPrescriptions s o).1.state = s.state)) := by
  refine ⟨?_, ?_, ?_⟩
  · intro rx
    simp [List.mem_filter]
  · intro hempty
    unfold listPrescriptions
    simp only [hp, hdb]
    simp only [hempty, List.isEmpty_nil, if_true]
    exact ⟨by simp [sendResponse_fst], by simp [sendResponse_fst], sendResponse_snd _ _ _⟩
  · intro hne
    unfold listPrescriptions
    simp only [hp, hdb]
    simp only [List.isEmpty_iff, hne]
    simp [List.isEmpty_iff, hne, sendResponse_fst]

/-- Witness for C5: one selectable and one exhausted prescription; only the
selectable one is retained and the state is unchanged. -/
theorem claim5_witness :
    ((∀ rx, rx ∈ ([Fixtures.rxMetformin, Fixtures.rxAspirin] : List Prescription).filter
          (fun rx => decide ((Fixtures.oTwoRx.now : Int) < rx.expires_date) &&
            decide ((0 : Int) < rx.refills_remaining)) ↔
      rx ∈ ([Fixtures.rxMetformin, Fixtures.rxAspirin] : List Prescription) ∧
        (Fixtures.oTwoRx.now : Int) < rx.expires_date ∧
        (0 : Int) < rx.refills_remaining)) ∧
    (([Fixtures.rxMetformin, Fixtures.rxAspirin] : List Prescription).filter
        (fun rx => decide ((Fixtures.oTwoRx.now : Int) < rx.expires_date) &&
          decide ((0 : Int) < rx.refills_remaining)) ≠ [] →
      ((listPrescriptions Fixtures.sPatient Fixtures.oTwoRx).1.context.prescriptions =
         some (([Fixtures.rxMetformin, Fixtures.rxAspirin] : List Prescription).filter
           (fun rx => decide ((Fixtures.oTwoRx.now : Int) < rx.expires_date) &&
             decide ((0 : Int) < rx.refills_remaining))) ∧
       (listPrescriptions Fixtures.sPatient Fixtures.oTwoRx).1.state =
         Fixtures.sPatient.state)) := by
  have h := claim5_list_prescriptions Fixtures.sPatient Fixtures.patJohn
    [Fixtures.rxMetformin, Fixtures.rxAspirin] Fixtures.oTwoRx rfl rfl
  exact ⟨h.1, h.2.2⟩

end ListPrescriptions

/-! ## Interaction check gating (C6) -/

section InteractionGate

open ConversationStateMachine VoiceSessionManager

/-- The state returned by `transition` does not depend on the context
argument. -/
theorem transition_state_ctx_irrel (s e : String) (c1 c2 : SessionCtx) :
    (transition s e c1).state = (transition s e c2).state := by
  rcases h : transitionsFor s with _ | tbl
  · rw [transition_eq_of_noTable s e c1 h, transition_eq_of_noTable s e c2 h]
  · rcases h2 : tbl e with _ | ns
    · rw [transition_eq_of_unmapped s e c1 tbl h h2,
        transition_eq_of_unmapped s e c2 tbl h h2]
    · rw [transition_eq_of_mapped s e ns c1 tbl h h2,
        transition_eq_of_mapped s e ns c2 tbl h h2]

/-- C6: once a prescription is matched against the eligible list,
`checkInteractions` stores it as the selection and then gates on the
interaction collaborator: a reported interaction surfaces the warning
message, records it on the session and moves the dialogue state to ERROR
without running `processRefill` (the refill details are untouched); a clean
check proceeds automatically to `processRefill` after auto-firing
`no_interactions`; a collaborator failure (fail-open) also proceeds to
`processRefill` after auto-firing `check_complete`. -/
theorem claim6_interaction_gate (s : Session) (rxs : List Prescription)
    (rx : Prescription) (userInput : String) (o : Oracle)
    (hp : s.context.prescriptions = some rxs)
    (hm : interactionMatch userInput rxs = some rx) :
    (∀ ic, o.interaction = .ok ic → ic.hasInteractions = true →
      ((checkInteractions s userInput o).1.state = ERROR ∧
       (checkInteractions s userInput o).1.context.selectedPrescription = some rx ∧
       (checkInteractions s userInput o).1.context.interactionWarning = some ic.warning ∧
       Msg.transcript ("assistant")
           ("I found a potential drug interaction with " ++ rx.medication_name ++ ". " ++
             ic.warning ++ " Would you like me to contact your pharmacist for review?") ∈
         (checkInteractions s userInput o).2 ∧
       (checkInteractions s userInput o).1.context.refillDetails = s.context.refillDetails)) ∧
    (∀ ic, o.interaction = .ok ic → ic.hasInteractions = false →
      ∃ sMid msgs1,
        checkInteractions s userInput o =
          ((processRefill sMid o).1, msgs1 ++ (processRefill sMid o).2) ∧
        sMid.context.selectedPrescription = some rx ∧
        sMid.state = (transition s.state ("no_interactions") s.context).state) ∧
    (o.interaction = .error () →
      ∃ sMid msgs1,
        checkInteractions s userInput o =
          ((processRefill sMid o).1, msgs1 ++ (processRefill sMid o).2) ∧
        sMid.context.selectedPrescription = some rx ∧
        sMid.state = (transition s.state ("check_complete") s.context).state) := by
  refine ⟨?_, ?_, ?_⟩
  · intro ic hic htrue
    unfold checkInteractions
    simp only [hp, hm, hic]
    simp only [htrue, if_true]
    refine ⟨by simp, by simp [sendResponse_fst], by simp [sendResponse_fst], ?_,
      by simp [sendResponse_fst]⟩
    exact sendResponse_snd _ _ _
  · intro ic hic hfalse
    unfold checkInteractions
    simp only [hp, hm, hic]
    simp only [hfalse, Bool.false_eq_true, if_false]
    refine ⟨_, _, rfl, by simp [sendResponse_fst], ?_⟩
    simp only [sendResponse_fst]
    exact transition_state_ctx_irrel _ _ _ _
  · intro herr
    unfold checkInteractions checkInteractionsCatch
    simp only [hp, hm, herr]
    refine ⟨_, _, rfl, by simp [sendResponse_fst], ?_⟩
    simp only [sendResponse_fst]
    exact transition_state_ctx_irrel _ _ _ _

/-- Witness for C6 at a concrete eligible list and matched prescription, one
instantiation per interaction-check outcome. -/
theorem claim6_witness :
    ((checkInteractions Fixtures.sEligible ("metformin") Fixtures.oSelectWarned).1.state = ERROR ∧
     (checkInteractions Fixtures.sEligible ("metformin")
         Fixtures.oSelectWarned).1.context.selectedPrescription = some Fixtures.rxMetformin ∧
     (checkInteractions Fixtures.sEligible ("metformin")
         Fixtures.oSelectWarned).1.context.interactionWarning =
       some ("Interacts with your current medication.") ∧
     Msg.transcript ("assistant")
         ("I found a potential drug interaction with " ++ Fixtures.rxMetformin.medication_name ++
           ". " ++ ("Interacts with your current medication." : String) ++
           " Would you like me to contact your pharmacist for review?") ∈
       (checkInteractions Fixtures.sEligible ("metformin") Fixtures.oSelectWarned).2 ∧
     (checkInteractions Fixtures.sEligible ("metformin")
         Fixtures.oSelectWarned).1.context.refillDetails =
       Fixtures.sEligible.context.refillDetails) ∧
    (∃ sMid msgs1,
      checkInteractions Fixtures.sEligible ("metformin") Fixtures.oBase =
        ((processRefill sMid Fixtures.oBase).1, msgs1 ++ (processRefill sMid Fixtures.oBase).2) ∧
      sMid.context.selectedPrescription = some Fixtures.rxMetformin ∧
      sMid.state =
        (transition Fixtures.sEligible.state ("no_interactions")
          Fixtures.sEligible.context).state) ∧
    (∃ sMid msgs1,
      checkInteractions Fixtures.sEligible ("metformin") Fixtures.oInteractionError =
        ((processRefill sMid Fixtures.oInteractionError).1,
          msgs1 ++ (processRefill sMid Fixtures.oInteractionError).2) ∧
      sMid.context.selectedPrescription = some Fixtures.rxMetformin ∧
      sMid.state =
        (transition Fixtures.sEligible.state ("check_complete")
          Fixtures.sEligible.context).state) :=
  ⟨(claim6_interaction_gate Fixtures.sEligible [Fixtures.rxMetformin] Fixtures.rxMetformin
      ("metformin") Fixtures.oSelectWarned rfl (by decide)).1
      ⟨true, "Interacts with your current medication."⟩ rfl rfl,
   (claim6_interaction_gate Fixtures.sEligible [Fixtures.rxMetformin] Fixtures.rxMetformin
      ("metformin") Fixtures.oBase rfl (by decide)).2.1 ⟨false, ""⟩ rfl rfl,
   (claim6_interaction_gate Fixtures.sEligible [Fixtures.rxMetformin] Fixtures.rxMetformin
      ("metformin") Fixtures.oInteractionError rfl (by decide)).2.2 rfl⟩

end InteractionGate

/-! ## Refill commit guard (C2) -/

section RefillGuard

open PrescriptionsRoute

/-- C2 counterexample: the decrement is not an atomic decrement-with-guard.
The guard reads the row at the start of the request; if the same prescription
reaches zero refills between that read and the UPDATE, the refill is still
committed: the caller receives a success response and refills-remaining is
driven to -1 instead of the decrement being refused. -/
theorem claim2_counterexample :
    ((postRefill [Fixtures.rxMetformin]
        [{ Fixtures.rxMetformin with refills_remaining := 0 }]
        1 1 0 0 (.ok ⟨false, ""⟩) true).1.success = true ∧
     (postRefill [Fixtures.rxMetformin]
        [{ Fixtures.rxMetformin with refills_remaining := 0 }]
        1 1 0 0 (.ok ⟨false, ""⟩) true).2 =
       [{ Fixtures.rxMetformin with refills_remaining := -1, last_filled := some 0 }]) := by
  decide

/-- C2 (amended): the refill route guards at read time, not at commit time.
When the row read at the start of the request has refills-remaining ≤ 0 (and
is not expired), the handler refuses with the 400 no-refills message and the
database is unchanged — the caller never sees a success confirmation.  When
the read row has refills-remaining > 0 and nothing else blocks, the handler
decrements by one.  The UPDATE itself is unguarded: it decrements whatever
database state it meets at commit time, so the check is check-then-act rather
than a single atomic decrement-with-guard. -/
theorem claim2_refill_guard (db : List Prescription) (prescriptionId patientId : Nat)
    (now today : Int) (interaction : Except Unit InteractionResult) (dbRunOk : Bool)
    (rx : Prescription)
    (hfind : dbGetPrescription db prescriptionId patientId = some rx)
    (hexp : ¬ rx.expires_date < now) :
    (rx.refills_remaining ≤ 0 →
      postRefillSeq db prescriptionId patientId now today interaction dbRunOk =
        ({ status := 400, success := false,
           message := "No refills remaining for this prescription. Please contact your doctor.",
           refillsRemaining := none }, db)) ∧
    (0 < rx.refills_remaining → ∀ ic, interaction = .ok ic → ic.hasInteractions = false →
      dbRunOk = true →
      postRefillSeq db prescriptionId patientId now today interaction dbRunOk =
        ({ status := 200, success := true, message := "Refill processed successfully",
           refillsRemaining := some (rx.refills_remaining - 1) },
         dbUpdateRefill db prescriptionId today)) ∧
    (∀ dbAtCommit, 0 < rx.refills_remaining → ∀ ic, interaction = .ok ic →
      ic.hasInteractions = false → dbRunOk = true →
      (postRefill db dbAtCommit prescriptionId patientId now today interaction dbRunOk).2 =
        dbUpdateRefill dbAtCommit prescriptionId today) := by
  refine ⟨?_, ?_, ?_⟩
  · intro hle
    unfold postRefillSeq postRefill
    simp only [hfind]
    simp [hexp, hle]
  · intro hpos ic hic hno hok
    subst hic hok
    unfold postRefillSeq postRefill
    simp only [hfind]
    simp [hexp, hno, (show ¬ rx.refills_remaining ≤ 0 by omega)]
  · intro dbAtCommit hpos ic hic hno hok
    subst hic hok
    unfold postRefill
    simp only [hfind]
    simp [hexp, hno, (show ¬ rx.refills_remaining ≤ 0 by omega)]

/-- Witness for C2 (amended): refusal on an exhausted row, decrement on a
selectable row. -/
theorem claim2_witness :
    (postRefillSeq [Fixtures.rxAspirin] 3 1 0 0 (.ok ⟨false, ""⟩) true =
      ({ status := 400, success := false,
         message := "No refills remaining for this prescription. Please contact your doctor.",
         refillsRemaining := none }, [Fixtures.rxAspirin]) ∧
     postRefillSeq [Fixtures.rxMetformin] 1 1 0 0 (.ok ⟨false, ""⟩) true =
      ({ status := 200, success := true, message := "Refill processed successfully",
         refillsRemaining := some (Fixtures.rxMetformin.refills_remaining - 1) },
       dbUpdateRefill [Fixtures.rxMetformin] 1 0)) :=
  ⟨(claim2_refill_guard [Fixtures.rxAspirin] 3 1 0 0 (.ok ⟨false, ""⟩) true
      Fixtures.rxAspirin rfl (by decide)).1 (by decide),
   (claim2_refill_guard [Fixtures.rxMetformin] 1 1 0 0 (.ok ⟨false, ""⟩) true
      Fixtures.rxMetformin rfl (by decide)).2.1 (by decide) ⟨false, ""⟩
      rfl rfl rfl⟩

end RefillGuard

/-! ## Transition-level lemmas for the identity-gating invariant (C1) -/

section TransitionInvLemmas

open ConversationStateMachine

theorem updateContext_selected (f t e : String) (c : SessionCtx) :
    (updateContext f t e c).selectedPrescription = c.selectedPrescription := by
  unfold updateContext
  split_ifs <;> rfl

theorem updateContext_prescriptions (f t e : String) (c : SessionCtx) :
    (updateContext f t e c).prescriptions = c.prescriptions := by
  unfold updateContext
  split_ifs <;> rfl

theorem updateContext_pV_mono (f t e : String) (c : SessionCtx) :
    (updateContext f t e c).patientVerified = c.patientVerified ∨
    (updateContext f t e c).patientVerified = true := by
  unfold updateContext
  split_ifs <;> simp

theorem updateContext_PR (f e : String) (c : SessionCtx) :
    (updateContext f PRESCRIPTION_REVIEW e c).patientVerified = true := by
  unfold updateContext
  rw [if_neg (by decide), if_pos (by decide)]

/-- The context actually merged into the session by `processUserInput`. -/
theorem transition_ctx_selected (s e : String) (c : SessionCtx) :
    ((transition s e c).context.getD c).selectedPrescription = c.selectedPrescription := by
  rcases h0 : transitionsFor s with _ | tbl
  · rw [transition_eq_of_noTable s e c h0]; rfl
  · rcases h2 : tbl e with _ | ns
    · rw [transition_eq_of_unmapped s e c tbl h0 h2]; rfl
    · rw [transition_eq_of_mapped s e ns c tbl h0 h2]
      exact updateContext_selected s ns e c

theorem transition_ctx_prescriptions (s e : String) (c : SessionCtx) :
    ((transition s e c).context.getD c).prescriptions = c.prescriptions := by
  rcases h0 : transitionsFor s with _ | tbl
  · rw [transition_eq_of_noTable s e c h0]; rfl
  · rcases h2 : tbl e with _ | ns
    · rw [transition_eq_of_unmapped s e c tbl h0 h2]; rfl
    · rw [transition_eq_of_mapped s e ns c tbl h0 h2]
      exact updateContext_prescriptions s ns e c

theorem transition_ctx_pV_mono (s e : String) (c : SessionCtx) :
    ((transition s e c).context.getD c).patientVerified = c.patientVerified ∨
    ((transition s e c).context.getD c).patientVerified = true := by
  rcases h0 : transitionsFor s with _ | tbl
  · rw [transition_eq_of_noTable s e c h0]; left; rfl
  · rcases h2 : tbl e with _ | ns
    · rw [transition_eq_of_unmapped s e c tbl h0 h2]; left; rfl
    · rw [transition_eq_of_mapped s e ns c tbl h0 h2]
      exact updateContext_pV_mono s ns e c

/-- Reaching PRESCRIPTION_REVIEW either stays there via the fallback or
enters via a mapped transition, whose context patch sets `patientVerified`. -/
theorem transition_PR (s e : String) (c : SessionCtx)
    (h : (transition s e c).state = PRESCRIPTION_REVIEW) :
    s = PRESCRIPTION_REVIEW ∨
    ((transition s e c).context.getD c).patientVerified = true := by
  rcases h0 : transitionsFor s with _ | tbl
  · rw [transition_eq_of_noTable s e c h0] at h ⊢
    exact absurd h (by decide)
  · rcases h2 : tbl e with _ | ns
    · rw [transition_eq_of_unmapped s e c tbl h0 h2] at h
      rcases Bool.eq_false_or_eq_true (e == ("unclear")) with hu | hu
      · rw [hu] at h; simp only [if_true] at h; exact Or.inl h
      · rw [hu] at h; simp only [Bool.false_eq_true, if_false] at h
        exact absurd h (by decide)
    · rw [transition_eq_of_mapped s e ns c tbl h0 h2] at h ⊢
      right
      simp only [Option.getD_some]
      subst h
      exact updateContext_PR s e c

end TransitionInvLemmas

/-! ## Per-table target enumerations and action characterizations -/

section TableTargets

open ConversationStateMachine

theorem transitionsGreeting_targets (e ns : String) (h : transitionsGreeting e = some ns) :
    ns = IDENTITY_VERIFICATION ∨ ns = INTENT_RECOGNITION := by
  unfold transitionsGreeting at h
  split_ifs at h <;> (injection h with h; subst h; simp)

theorem transitionsIntentRecognition_targets (e ns : String)
    (h : transitionsIntentRecognition e = some ns) :
    ns = IDENTITY_VERIFICATION ∨ ns = INTENT_RECOGNITION := by
  unfold transitionsIntentRecognition at h
  split_ifs at h <;> (injection h with h; subst h; simp)

theorem transitionsIdentityVerification_targets (e ns : String)
    (h : transitionsIdentityVerification e = some ns) :
    ns = DATE_OF_BIRTH ∨ ns = IDENTITY_VERIFICATION ∨ ns = ERROR := by
  unfold transitionsIdentityVerification at h
  split_ifs at h <;> (injection h with h; subst h; simp)

theorem transitionsDateOfBirth_targets (e ns : String)
    (h : transitionsDateOfBirth e = some ns) :
    ns = PRESCRIPTION_REVIEW ∨ ns = DATE_OF_BIRTH ∨ ns = ERROR := by
  unfold transitionsDateOfBirth at h
  split_ifs at h <;> (injection h with h; subst h; simp)

theorem transitionsPrescriptionReview_targets (e ns : String)
    (h : transitionsPrescriptionReview e = some ns) :
    ns = PRESCRIPTION_SELECTION ∨ ns = ERROR := by
  unfold transitionsPrescriptionReview at h
  split_ifs at h <;> (injection h with h; subst h; simp)

theorem transitionsPrescriptionSelection_targets (e ns : String)
    (h : transitionsPrescriptionSelection e = some ns) :
    ns = INTERACTION_CHECK ∨ ns = PRESCRIPTION_SELECTION ∨ ns = ERROR := by
  unfold transitionsPrescriptionSelection at h
  split_ifs at h <;> (injection h with h; subst h; simp)

theorem transitionsInteractionCheck_targets (e ns : String)
    (h : transitionsInteractionCheck e = some ns) :
    ns = CONFIRMATION ∨ ns = ERROR := by
  unfold transitionsInteractionCheck at h
  split_ifs at h <;> (injection h with h; subst h; simp)

theorem transitionsConfirmation_targets (e ns : String)
    (h : transitionsConfirmation e = some ns) :
    ns = COMPLETED ∨ ns = GREETING ∨ ns = ERROR := by
  unfold transitionsConfirmation at h
  split_ifs at h <;> (injection h with h; subst h; simp)

theorem transitionsCompleted_targets (e ns : String)
    (h : transitionsCompleted e = some ns) :
    ns = GREETING ∨ ns = COMPLETED := by
  unfold transitionsCompleted at h
  split_ifs at h <;> (injection h with h; subst h; simp)

theorem transitionsError_targets (e ns : String)
    (h : transitionsError e = some ns) :
    ns = GREETING ∨ ns = COMPLETED := by
  unfold transitionsError at h
  split_ifs at h <;> (injection h with h; subst h; simp)

/-- Only PRESCRIPTION_REVIEW and PRESCRIPTION_SELECTION can transition into
PRESCRIPTION_SELECTION. -/
theorem transition_PS (s e : String) (c : SessionCtx)
    (h : (transition s e c).state = PRESCRIPTION_SELECTION) :
    s = PRESCRIPTION_REVIEW ∨ s = PRESCRIPTION_SELECTION := by
  rcases h0 : transitionsFor s with _ | tbl
  · rw [transition_eq_of_noTable s e c h0] at h
    exact absurd h (by decide)
  · rcases h2 : tbl e with _ | ns
    · rw [transition_eq_of_unmapped s e c tbl h0 h2] at h
      rcases Bool.eq_false_or_eq_true (e == ("unclear")) with hu | hu
      · rw [hu] at h; simp only [if_true] at h; exact Or.inr h
      · rw [hu] at h; simp only [Bool.false_eq_true, if_false] at h
        exact absurd h (by decide)
    · rw [transition_eq_of_mapped s e ns c tbl h0 h2] at h
      replace h : ns = PRESCRIPTION_SELECTION := h
      subst h
      rcases transitionsFor_cases s with hc | ⟨hs, hc⟩ | ⟨hs, hc⟩ | ⟨hs, hc⟩ | ⟨hs, hc⟩ |
        ⟨hs, hc⟩ | ⟨hs, hc⟩ | ⟨hs, hc⟩ | ⟨hs, hc⟩ | ⟨hs, hc⟩ | ⟨hs, hc⟩ <;>
        rw [hc] at h0
      · cases h0
      all_goals (injection h0 with h0; subst h0; subst hs)
      · rcases transitionsGreeting_targets e _ h2 with h3 | h3 <;> exact absurd h3 (by decide)
      · rcases transitionsIntentRecognition_targets e _ h2 with h3 | h3 <;>
          exact absurd h3 (by decide)
      · rcases transitionsIdentityVerification_targets e _ h2 with h3 | h3 | h3 <;>
          exact absurd h3 (by decide)
      · rcases transitionsDateOfBirth_targets e _ h2 with h3 | h3 | h3 <;>
          exact absurd h3 (by decide)
      · exact Or.inl rfl
      · exact Or.inr rfl
      · rcases transitionsInteractionCheck_targets e _ h2 with h3 | h3 <;>
          exact absurd h3 (by decide)
      · rcases transitionsConfirmation_targets e _ h2 with h3 | h3 | h3 <;>
          exact absurd h3 (by decide)
      · rcases transitionsCompleted_targets e _ h2 with h3 | h3 <;> exact absurd h3 (by decide)
      · rcases transitionsError_targets e _ h2 with h3 | h3 <;> exact absurd h3 (by decide)

/-- The `check_interactions` action only arises from the
PRESCRIPTION_SELECTION row. -/
theorem transition_action_check (s e : String) (c : SessionCtx)
    (h : (transition s e c).action = ("check_interactions")) :
    s = PRESCRIPTION_SELECTION := by
  rcases h0 : transitionsFor s with _ | tbl
  · rw [transition_eq_of_noTable s e c h0] at h
    replace h : ("error_no_transitions" : String) = ("check_interactions") := h
    exact absurd h (by decide)
  · rcases h2 : tbl e with _ | ns
    · rw [transition_eq_of_unmapped s e c tbl h0 h2] at h
      replace h : ("stay_or_error" : String) = ("check_interactions") := h
      exact absurd h (by decide)
    · rw [transition_eq_of_mapped s e ns c tbl h0 h2] at h
      replace h : getActionForTransition s ns = ("check_interactions") := h
      rcases transitionsFor_cases s with hc | ⟨hs, hc⟩ | ⟨hs, hc⟩ | ⟨hs, hc⟩ | ⟨hs, hc⟩ |
        ⟨hs, hc⟩ | ⟨hs, hc⟩ | ⟨hs, hc⟩ | ⟨hs, hc⟩ | ⟨hs, hc⟩ | ⟨hs, hc⟩ <;>
        rw [hc] at h0
      · cases h0
      all_goals (try (injection h0 with h0; subst h0; subst hs))
      all_goals (try (first | exact hs | rfl))
      · rcases transitionsGreeting_targets e _ h2 with h3 | h3 <;> subst h3 <;>
          exact absurd h (by decide)
      · rcases transitionsIntentRecognition_targets e _ h2 with h3 | h3 <;> subst h3 <;>
          exact absurd h (by decide)
      · rcases transitionsIdentityVerification_targets e _ h2 with h3 | h3 | h3 <;> subst h3 <;>
          exact absurd h (by decide)
      · rcases transitionsDateOfBirth_targets e _ h2 with h3 | h3 | h3 <;> subst h3 <;>
          exact absurd h (by decide)
      · rcases transitionsPrescriptionReview_targets e _ h2 with h3 | h3 <;> subst h3 <;>
          exact absurd h (by decide)
      · rcases transitionsInteractionCheck_targets e _ h2 with h3 | h3 <;> subst h3 <;>
          exact absurd h (by decide)
      · rcases transitionsConfirmation_targets e _ h2 with h3 | h3 | h3 <;> subst h3 <;>
          exact absurd h (by decide)
      · rcases transitionsCompleted_targets e _ h2 with h3 | h3 <;> subst h3 <;>
          exact absurd h (by decide)
      · rcases transitionsError_targets e _ h2 with h3 | h3 <;> subst h3 <;>
          exact absurd h (by decide)

/-- The `verify_patient` action only arises from the DATE_OF_BIRTH row into
PRESCRIPTION_REVIEW, whose context patch sets `patientVerified`. -/
theorem transition_action_verify (s e : String) (c : SessionCtx)
    (h : (transition s e c).action = ("verify_patient")) :
    ((transition s e c).context.getD c).patientVerified = true := by
  rcases h0 : transitionsFor s with _ | tbl
  · rw [transition_eq_of_noTable s e c h0] at h
    replace h : ("error_no_transitions" : String) = ("verify_patient") := h
    exact absurd h (by decide)
  · rcases h2 : tbl e with _ | ns
    · rw [transition_eq_of_unmapped s e c tbl h0 h2] at h
      replace h : ("stay_or_error" : String) = ("verify_patient") := h
      exact absurd h (by decide)
    · rw [transition_eq_of_mapped s e ns c tbl h0 h2] at h ⊢
      replace h : getActionForTransition s ns = ("verify_patient") := h
      show (updateContext s ns e c).patientVerified = true
      rcases transitionsFor_cases s with hc | ⟨hs, hc⟩ | ⟨hs, hc⟩ | ⟨hs, hc⟩ | ⟨hs, hc⟩ |
        ⟨hs, hc⟩ | ⟨hs, hc⟩ | ⟨hs, hc⟩ | ⟨hs, hc⟩ | ⟨hs, hc⟩ | ⟨hs, hc⟩ <;>
        rw [hc] at h0
      · cases h0
      all_goals (injection h0 with h0; subst h0; subst hs)
      · rcases transitionsGreeting_targets e _ h2 with h3 | h3 <;> subst h3 <;>
          exact absurd h (by decide)
      · rcases transitionsIntentRecognition_targets e _ h2 with h3 | h3 <;> subst h3 <;>
          exact absurd h (by decide)
      · rcases transitionsIdentityVerification_targets e _ h2 with h3 | h3 | h3 <;> subst h3 <;>
          exact absurd h (by decide)
      · rcases transitionsDateOfBirth_targets e _ h2 with h3 | h3 | h3
        · subst h3; exact updateContext_PR _ _ _
        · subst h3; exact absurd h (by decide)
        · subst h3; exact absurd h (by decide)
      · rcases transitionsPrescriptionReview_targets e _ h2 with h3 | h3 <;> subst h3 <;>
          exact absurd h (by decide)
      · rcases transitionsPrescriptionSelection_targets e _ h2 with h3 | h3 | h3 <;> subst h3 <;>
          exact absurd h (by decide)
      · rcases transitionsInteractionCheck_targets e _ h2 with h3 | h3 <;> subst h3 <;>
          exact absurd h (by decide)
      · rcases transitionsConfirmation_targets e _ h2 with h3 | h3 | h3 <;> subst h3 <;>
          exact absurd h (by decide)
      · rcases transitionsCompleted_targets e _ h2 with h3 | h3 <;> subst h3 <;>
          exact absurd h (by decide)
      · rcases transitionsError_targets e _ h2 with h3 | h3 <;> subst h3 <;>
          exact absurd h (by decide)

end TableTargets

/-! ## Handler-level preservation lemmas -/

section HandlerCoreLemmas

open ConversationStateMachine VoiceSessionManager

theorem requestPatientName_core (s : Session) (o : Oracle) :
    (requestPatientName s o).1.state = s.state ∧
    (requestPatientName s o).1.context.patientVerified = s.context.patientVerified ∧
    (requestPatientName s o).1.context.selectedPrescription = s.context.selectedPrescription ∧
    (requestPatientName s o).1.context.prescriptions = s.context.prescriptions := by
  unfold requestPatientName
  try dsimp only
  refine ⟨?_, ?_, ?_, ?_⟩ <;> simp [sendResponse_fst]

theorem requestDateOfBirth_core (s : Session) (o : Oracle) :
    (requestDateOfBirth s o).1.state = s.state ∧
    (requestDateOfBirth s o).1.context.patientVerified = s.context.patientVerified ∧
    (requestDateOfBirth s o).1.context.selectedPrescription = s.context.selectedPrescription ∧
    (requestDateOfBirth s o).1.context.prescriptions = s.context.prescriptions := by
  unfold requestDateOfBirth
  try dsimp only
  split_ifs <;> (refine ⟨?_, ?_, ?_, ?_⟩ <;> simp [sendResponse_fst])

theorem generateContextualResponse_core (s : Session) (u : String) (o : Oracle) :
    (generateContextualResponse s u o).1.state = s.state ∧
    (generateContextualResponse s u o).1.context.patientVerified = s.context.patientVerified ∧
    (generateContextualResponse s u o).1.context.selectedPrescription =
      s.context.selectedPrescription ∧
    (generateContextualResponse s u o).1.context.prescriptions = s.context.prescriptions := by
  unfold generateContextualResponse
  try dsimp only
  split <;> (refine ⟨?_, ?_, ?_, ?_⟩ <;> simp [sendResponse_fst])

theorem completeRefill_core (s : Session) (o : Oracle) :
    (completeRefill s o).1.state = s.state ∧
    (completeRefill s o).1.context.patientVerified = s.context.patientVerified ∧
    (completeRefill s o).1.context.selectedPrescription = s.context.selectedPrescription ∧
    (completeRefill s o).1.context.prescriptions = s.context.prescriptions := by
  unfold completeRefill
  try dsimp only
  refine ⟨?_, ?_, ?_, ?_⟩ <;> simp [sendResponse_fst]

theorem handleNoTranscription_core (s : Session) (o : Oracle) :
    (handleNoTranscription s o).1.state = s.state ∧
    (handleNoTranscription s o).1.context.patientVerified = s.context.patientVerified ∧
    (handleNoTranscription s o).1.context.selectedPrescription =
      s.context.selectedPrescription ∧
    (handleNoTranscription s o).1.context.prescriptions = s.context.prescriptions := by
  unfold handleNoTranscription
  try dsimp only
  refine ⟨?_, ?_, ?_, ?_⟩ <;> simp [sendResponse_fst]

theorem handleTranscriptionError_core (s : Session) (o : Oracle) :
    (handleTranscriptionError s o).1.state = s.state ∧
    (handleTranscriptionError s o).1.context.patientVerified = s.context.patientVerified ∧
    (handleTranscriptionError s o).1.context.selectedPrescription =
      s.context.selectedPrescription ∧
    (handleTranscriptionError s o).1.context.prescriptions = s.context.prescriptions := by
  unfold handleTranscriptionError
  try dsimp only
  refine ⟨?_, ?_, ?_, ?_⟩ <;> simp [sendResponse_fst]

theorem processRefill_core (s : Session) (o : Oracle) :
    (processRefill s o).1.context.patientVerified = s.context.patientVerified ∧
    (processRefill s o).1.context.selectedPrescription = s.context.selectedPrescription ∧
    (processRefill s o).1.context.prescriptions = s.context.prescriptions := by
  unfold processRefill
  try dsimp only
  split
  · refine ⟨?_, ?_, ?_⟩ <;> simp [sendResponse_fst]
  · split_ifs <;> (refine ⟨?_, ?_, ?_⟩ <;> simp [sendResponse_fst])

theorem processRefill_state_of_none (s : Session) (o : Oracle)
    (h : s.context.selectedPrescription = none) :
    (processRefill s o).1.state = s.state := by
  unfold processRefill
  try dsimp only
  simp only [h]
  simp [sendResponse_fst]

theorem listPrescriptions_core (s : Session) (o : Oracle) :
    (listPrescriptions s o).1.state = s.state ∧
    (listPrescriptions s o).1.context.patientVerified = s.context.patientVerified ∧
    (listPrescriptions s o).1.context.selectedPrescription = s.context.selectedPrescription := by
  unfold listPrescriptions
  try dsimp only
  split
  · refine ⟨?_, ?_, ?_⟩ <;> simp [sendResponse_fst]
  · split
    · refine ⟨?_, ?_, ?_⟩ <;> simp [sendResponse_fst]
    · split_ifs <;> (refine ⟨?_, ?_, ?_⟩ <;> simp [sendResponse_fst])

theorem verifyPatient_core (s : Session) (u : String) (o : Oracle) :
    (verifyPatient s u o).1.context.patientVerified = s.context.patientVerified ∧
    (verifyPatient s u o).1.context.selectedPrescription = s.context.selectedPrescription := by
  unfold verifyPatient
  try dsimp only
  split_ifs
  · constructor <;> simp [sendResponse_fst]
  · split
    · constructor <;> simp [sendResponse_fst]
    · constructor <;> simp [sendResponse_fst]
    · constructor
      · rw [(listPrescriptions_core _ _).2.1]; try simp [sendResponse_fst]
      · rw [(listPrescriptions_core _ _).2.2]; try simp [sendResponse_fst]

theorem checkInteractionsCatch_core (s : Session) (o : Oracle) :
    (checkInteractionsCatch s o).1.context.patientVerified = s.context.patientVerified ∧
    (checkInteractionsCatch s o).1.context.selectedPrescription =
      s.context.selectedPrescription ∧
    (checkInteractionsCatch s o).1.context.prescriptions = s.context.prescriptions := by
  unfold checkInteractionsCatch
  try dsimp only
  refine ⟨?_, ?_, ?_⟩
  · rw [(processRefill_core _ _).1]; try simp [sendResponse_fst]
  · rw [(processRefill_core _ _).2.1]; try simp [sendResponse_fst]
  · rw [(processRefill_core _ _).2.2]; try simp [sendResponse_fst]

theorem checkInteractions_pV (s : Session) (u : String) (o : Oracle) :
    (checkInteractions s u o).1.context.patientVerified = s.context.patientVerified := by
  unfold checkInteractions
  try dsimp only
  split
  · rw [(checkInteractionsCatch_core _ _).1]
  · split
    · simp [sendResponse_fst]
    · split
      · rw [(checkInteractionsCatch_core _ _).1]; try simp [sendResponse_fst]
      · split_ifs
        · simp [sendResponse_fst]
        · rw [(processRefill_core _ _).1]; try simp [sendResponse_fst]

theorem checkInteractions_prescriptions (s : Session) (u : String) (o : Oracle) :
    (checkInteractions s u o).1.context.prescriptions = s.context.prescriptions := by
  unfold checkInteractions
  try dsimp only
  split
  · rw [(checkInteractionsCatch_core _ _).2.2]
  · split
    · simp [sendResponse_fst]
    · split
      · rw [(checkInteractionsCatch_core _ _).2.2]; try simp [sendResponse_fst]
      · split_ifs
        · simp [sendResponse_fst]
        · rw [(processRefill_core _ _).2.2]; try simp [sendResponse_fst]

theorem checkInteractions_selected (s : Session) (u : String) (o : Oracle) (rx : Prescription)
    (h : (checkInteractions s u o).1.context.selectedPrescription = some rx) :
    s.context.selectedPrescription = some rx ∨
      ∃ l, (checkInteractions s u o).1.context.prescriptions = some l ∧ rx ∈ l := by
  rcases hp : s.context.prescriptions with _ | rxs
  · left
    unfold checkInteractions at h
    simp only [hp] at h
    rw [(checkInteractionsCatch_core _ _).2.1] at h
    exact h
  · rcases hm : interactionMatch u rxs with _ | p
    · left
      unfold checkInteractions at h
      simp only [hp, hm] at h
      simp [sendResponse_fst] at h
      exact h
    · have hmem : p ∈ rxs := by
        have hm2 : rxs.find? (fun rx =>
            jsIncludes (jsToLower rx.medication_name) (jsToLower u) ||
            jsIncludes (jsToLower u) (jsToLower rx.medication_name)) = some p := by
          simpa [interactionMatch] using hm
        exact List.mem_of_find?_eq_some hm2
      have hpres := checkInteractions_prescriptions s u o
      have hprx : p = rx := by
        unfold checkInteractions at h
        simp only [hp, hm] at h
        rcases hi : o.interaction with _ | ic
        · simp only [hi] at h
          rw [(checkInteractionsCatch_core _ _).2.1] at h
          simp at h
          exact h
        · simp only [hi] at h
          split_ifs at h
          · simp [sendResponse_fst] at h
            exact h
          · rw [(processRefill_core _ _).2.1] at h
            simp [sendResponse_fst] at h
            exact h
      right
      exact ⟨rxs, by rw [hpres, hp], hprx ▸ hmem⟩

end HandlerCoreLemmas

/-! ## executeAction and processUserInput lemmas -/

section ProcessInputLemmas

open ConversationStateMachine VoiceSessionManager

theorem executeAction_pV (s : Session) (action u : String) (o : Oracle) :
    (executeAction s action u o).1.context.patientVerified =
      s.context.patientVerified := by
  unfold executeAction
  split_ifs
  · exact (requestPatientName_core s o).2.1
  · exact (requestDateOfBirth_core s o).2.1
  · exact (verifyPatient_core s u o).1
  · exact (listPrescriptions_core s o).2.1
  · exact checkInteractions_pV s u o
  · exact (processRefill_core s o).1
  · exact (completeRefill_core s o).2.1
  · exact (generateContextualResponse_core s u o).2.1

theorem executeAction_stable (s : Session) (action u : String) (o : Oracle)
    (hA : action ≠ ("check_interactions")) (hV : action ≠ ("verify_patient"))
    (hsel : s.context.selectedPrescription = none) :
    (executeAction s action u o).1.state = s.state ∧
    (executeAction s action u o).1.context.selectedPrescription = none := by
  unfold executeAction
  split_ifs with h1 h2 h3 h4 h5 h6 h7
  · exact ⟨(requestPatientName_core s o).1,
      by rw [(requestPatientName_core s o).2.2.1, hsel]⟩
  · exact ⟨(requestDateOfBirth_core s o).1,
      by rw [(requestDateOfBirth_core s o).2.2.1, hsel]⟩
  · exact absurd (eq_of_beq h3) hV
  · exact ⟨(listPrescriptions_core s o).1,
      by rw [(listPrescriptions_core s o).2.2, hsel]⟩
  · exact absurd (eq_of_beq h5) hA
  · exact ⟨processRefill_state_of_none s o hsel,
      by rw [(processRefill_core s o).2.1, hsel]⟩
  · exact ⟨(completeRefill_core s o).1,
      by rw [(completeRefill_core s o).2.2.1, hsel]⟩
  · exact ⟨(generateContextualResponse_core s u o).1,
      by rw [(generateContextualResponse_core s u o).2.2.1, hsel]⟩

theorem executeAction_selected (s : Session) (action u : String) (o : Oracle)
    (rx : Prescription)
    (h : (executeAction s action u o).1.context.selectedPrescription = some rx) :
    s.context.selectedPrescription = some rx ∨
      ∃ l, (executeAction s action u o).1.context.prescriptions = some l ∧ rx ∈ l := by
  unfold executeAction at h ⊢
  split_ifs at h ⊢
  · left; rw [(requestPatientName_core s o).2.2.1] at h; exact h
  · left; rw [(requestDateOfBirth_core s o).2.2.1] at h; exact h
  · left; rw [(verifyPatient_core s u o).2] at h; exact h
  · left; rw [(listPrescriptions_core s o).2.2] at h; exact h
  · exact checkInteractions_selected s u o rx h
  · left; rw [(processRefill_core s o).2.1] at h; exact h
  · left; rw [(completeRefill_core s o).2.2.1] at h; exact h
  · left; rw [(generateContextualResponse_core s u o).2.2.1] at h; exact h

/-- `processUserInput` factors into the state-machine transition followed by
the action dispatch. -/
theorem processUserInput_fst (s : Session) (u : String) (o : Oracle) :
    (processUserInput s u o).1 =
      (executeAction
        { s with
            state := (transition s.state o.intent
              { s.context with history := s.context.history ++ [⟨"user", u, o.now⟩] }).state,
            context := (transition s.state o.intent
              { s.context with history := s.context.history ++ [⟨"user", u, o.now⟩] }).context.getD
                { s.context with history := s.context.history ++ [⟨"user", u, o.now⟩] } }
        (transition s.state o.intent
          { s.context with history := s.context.history ++ [⟨"user", u, o.now⟩] }).action
        u o).1 := rfl

theorem sessionInv_of_eq (s s' : Session)
    (hst : s'.state = s.state)
    (hpv : s'.context.patientVerified = s.context.patientVerified)
    (hsel : s'.context.selectedPrescription = s.context.selectedPrescription)
    (h : SessionInv s) : SessionInv s' := by
  obtain ⟨h1, h2⟩ := h
  constructor
  · intro hs
    rw [hpv]
    exact h1 (by rw [← hsel]; exact hs)
  · intro hs
    rw [hpv]
    exact h2 (by rw [← hst]; exact hs)

/-- A session whose `patientVerified` flag is set satisfies the invariant. -/
theorem sessionInv_of_pV (s : Session) (h : s.context.patientVerified = true) :
    SessionInv s :=
  ⟨fun _ => h, fun _ => h⟩

theorem processUserInput_inv (s : Session) (u : String) (o : Oracle)
    (h : SessionInv s) : SessionInv (processUserInput s u o).1 := by
  obtain ⟨h1, h2⟩ := h
  rw [processUserInput_fst]
  set C : SessionCtx :=
    { s.context with history := s.context.history ++ [⟨"user", u, o.now⟩] } with hC
  have hCpv : C.patientVerified = s.context.patientVerified := rfl
  have hCsel : C.selectedPrescription = s.context.selectedPrescription := rfl
  rcases transition_ctx_pV_mono s.state o.intent C with hmono | htrue
  · by_cases hpv : s.context.patientVerified = true
    · refine sessionInv_of_pV _ ?_
      rw [executeAction_pV]
      show ((transition s.state o.intent C).context.getD C).patientVerified = true
      rw [hmono, hCpv]
      exact hpv
    · have hselnone : s.context.selectedPrescription = none := by
        rcases hsel0 : s.context.selectedPrescription with _ | rx0
        · rfl
        · exact absurd (h1 (by rw [hsel0]; rfl)) hpv
      have hstnot : ¬ (s.state = ConversationStateMachine.PRESCRIPTION_REVIEW ∨
          s.state = ConversationStateMachine.PRESCRIPTION_SELECTION) :=
        fun hm => hpv (h2 hm)
      have hs2selnone : ({ s with
          state := (transition s.state o.intent C).state,
          context := (transition s.state o.intent C).context.getD C } :
            Session).context.selectedPrescription = none := by
        show ((transition s.state o.intent C).context.getD C).selectedPrescription = none
        rw [transition_ctx_selected, hCsel, hselnone]
      have hActC : (transition s.state o.intent C).action ≠ ("check_interactions") :=
        fun hact => hstnot (Or.inr (transition_action_check s.state o.intent C hact))
      have hActV : (transition s.state o.intent C).action ≠ ("verify_patient") := by
        intro hact
        have hx := transition_action_verify s.state o.intent C hact
        rw [hmono, hCpv] at hx
        exact hpv hx
      obtain ⟨hst', hsel'⟩ :=
        executeAction_stable _ (transition s.state o.intent C).action u o hActC hActV hs2selnone
      constructor
      · intro hsome
        rw [hsel'] at hsome
        simp at hsome
      · intro hm
        rw [hst'] at hm
        replace hm :
            (transition s.state o.intent C).state =
                ConversationStateMachine.PRESCRIPTION_REVIEW ∨
              (transition s.state o.intent C).state =
                ConversationStateMachine.PRESCRIPTION_SELECTION := hm
        rcases hm with hm | hm
        · rcases transition_PR s.state o.intent C hm with hcase | hcase
          · exact (hstnot (Or.inl hcase)).elim
          · rw [hmono, hCpv] at hcase
            exact (hpv hcase).elim
        · exact (hstnot (transition_PS s.state o.intent C hm)).elim
  · refine sessionInv_of_pV _ ?_
    rw [executeAction_pV]
    exact htrue

end ProcessInputLemmas

/-! ## Step-level invariant preservation and the identity-gating claim (C1) -/

section IdentityGating

open ConversationStateMachine VoiceSessionManager

theorem handleAudioChunk_core (s : Session) (b : List Nat) (now : Nat) :
    (handleAudioChunk s b now).1.state = s.state ∧
    (handleAudioChunk s b now).1.context.patientVerified = s.context.patientVerified ∧
    (handleAudioChunk s b now).1.context.selectedPrescription =
      s.context.selectedPrescription ∧
    (handleAudioChunk s b now).1.context.prescriptions = s.context.prescriptions := by
  unfold handleAudioChunk handleInterruptSession
  dsimp only
  split_ifs <;> exact ⟨rfl, rfl, rfl, rfl⟩

theorem processUserInput_selected (s : Session) (u : String) (o : Oracle) (rx : Prescription)
    (h : (processUserInput s u o).1.context.selectedPrescription = some rx) :
    s.context.selectedPrescription = some rx ∨
      ∃ l, (processUserInput s u o).1.context.prescriptions = some l ∧ rx ∈ l := by
  rw [processUserInput_fst] at h ⊢
  set C : SessionCtx :=
    { s.context with history := s.context.history ++ [⟨"user", u, o.now⟩] } with hC
  rcases executeAction_selected _ (transition s.state o.intent C).action u o rx h with hL | hR
  · left
    replace hL :
        ((transition s.state o.intent C).context.getD C).selectedPrescription = some rx := hL
    rw [transition_ctx_selected] at hL
    exact hL
  · exact Or.inr hR

theorem handleEndAudio_inv (s : Session) (o : Oracle) (h : SessionInv s) :
    SessionInv (handleEndAudio s o).1 := by
  have h0 : SessionInv { s with context := { s.context with isRecording := false } } :=
    sessionInv_of_eq _ _ rfl rfl rfl h
  have hTE : SessionInv (handleTranscriptionError
      { s with context := { s.context with isRecording := false } } o).1 :=
    sessionInv_of_eq _ _ (handleTranscriptionError_core _ _).1
      (handleTranscriptionError_core _ _).2.1
      (handleTranscriptionError_core _ _).2.2.1 h0
  have hNT : SessionInv (handleNoTranscription
      { s with context := { s.context with isRecording := false } } o).1 :=
    sessionInv_of_eq _ _ (handleNoTranscription_core _ _).1
      (handleNoTranscription_core _ _).2.1
      (handleNoTranscription_core _ _).2.2.1 h0
  have hPU : ∀ u, SessionInv (processUserInput
      { s with context := { s.context with isRecording := false } } u o).1 :=
    fun u => processUserInput_inv _ u o h0
  unfold handleEndAudio
  dsimp only
  split_ifs
  · split
    · exact sessionInv_of_eq _ _ rfl rfl rfl hTE
    · split_ifs
      · exact sessionInv_of_eq _ _ rfl rfl rfl (hPU _)
      · exact sessionInv_of_eq _ _ rfl rfl rfl hNT
  · exact sessionInv_of_eq _ _ rfl rfl rfl h0

theorem handleEndAudio_selected (s : Session) (o : Oracle) (rx : Prescription)
    (h : (handleEndAudio s o).1.context.selectedPrescription = some rx) :
    s.context.selectedPrescription = some rx ∨
      ∃ l, (handleEndAudio s o).1.context.prescriptions = some l ∧ rx ∈ l := by
  unfold handleEndAudio at h ⊢
  dsimp only at h ⊢
  split_ifs at h ⊢
  · rcases hstt : o.stt with e0 | t
    · simp only [hstt] at h ⊢
      left
      replace h :
          (handleTranscriptionError { s with context :=
            { s.context with isRecording := false } } o).1.context.selectedPrescription =
            some rx := h
      rw [(handleTranscriptionError_core _ _).2.2.1] at h
      exact h
    · simp only [hstt] at h ⊢
      split_ifs at h ⊢
      · rcases processUserInput_selected _ _ _ rx h with hL | ⟨l, hl, hmem⟩
        · exact Or.inl hL
        · exact Or.inr ⟨l, hl, hmem⟩
      · left
        replace h :
            (handleNoTranscription { s with context :=
              { s.context with isRecording := false } } o).1.context.selectedPrescription =
              some rx := h
        rw [(handleNoTranscription_core _ _).2.2.1] at h
        exact h
  · exact Or.inl h

theorem step_inv (s : Session) (e : Event) (h : SessionInv s) : SessionInv (step s e).1 := by
  rcases e with ⟨b, o⟩ | o | ⟨t, o⟩ | _
  · exact sessionInv_of_eq _ _ (handleAudioChunk_core s b o.now).1
      (handleAudioChunk_core s b o.now).2.1 (handleAudioChunk_core s b o.now).2.2.1 h
  · exact handleEndAudio_inv s o h
  · exact processUserInput_inv _ _ _ (sessionInv_of_eq _ _ rfl rfl rfl h)
  · exact sessionInv_of_eq _ _ rfl rfl rfl h

theorem step_selected (s : Session) (e : Event) (rx : Prescription)
    (h : (step s e).1.context.selectedPrescription = some rx) :
    s.context.selectedPrescription = some rx ∨
      ∃ l, (step s e).1.context.prescriptions = some l ∧ rx ∈ l := by
  rcases e with ⟨b, o⟩ | o | ⟨t, o⟩ | _
  · left
    replace h : (handleAudioChunk s b o.now).1.context.selectedPrescription = some rx := h
    rw [(handleAudioChunk_core s b o.now).2.2.1] at h
    exact h
  · exact handleEndAudio_selected s o rx h
  · rcases processUserInput_selected _ _ _ rx h with hL | hR
    · exact Or.inl hL
    · exact Or.inr hR
  · exact Or.inl h

theorem startSession_inv (sessionId : String) (o : Oracle) :
    SessionInv (startSession sessionId o).1 := by
  constructor
  · intro hsome
    have hnone : (none : Option Prescription).isSome = true := hsome
    simp at hnone
  · intro hm
    have hst : (startSession sessionId o).1.state = GREETING := rfl
    rw [hst] at hm
    rcases hm with hm | hm <;> exact absurd hm (by decide)

theorem foldl_step_inv (events : List Event) :
    ∀ s : Session, SessionInv s →
      SessionInv (events.foldl (fun s e => (step s e).1) s) := by
  induction events with
  | nil => intro s hs; exact hs
  | cons e es ih => intro s hs; exact ih _ (step_inv s e hs)

theorem runEvents_inv (sessionId : String) (o0 : Oracle) (events : List Event) :
    SessionInv (runEvents sessionId o0 events) :=
  foldl_step_inv events _ (startSession_inv sessionId o0)

set_option maxRecDepth 100000 in
/-- C1 counterexample: after the recorded event sequence the session holds
`selectedPrescription = Metformin` while the most recently fetched eligible
list is `[Lisinopril]`: the selection is not a member of the last-fetched
list (the selection is never cleared when the list is re-fetched), even
though `patientVerified` is true.  This refutes the membership half of the
claimed invariant. -/
theorem claim1_counterexample :
    (runEvents ("s1") Fixtures.oBase Fixtures.eventsRefetch).context.selectedPrescription =
      some Fixtures.rxMetformin ∧
    (runEvents ("s1") Fixtures.oBase Fixtures.eventsRefetch).context.prescriptions =
      some [Fixtures.rxLisinopril] ∧
    Fixtures.rxMetformin ∉ [Fixtures.rxLisinopril] ∧
    (runEvents ("s1") Fixtures.oBase Fixtures.eventsRefetch).context.patientVerified =
      true := by
  refine ⟨by decide, by decide, by decide, by decide⟩

/-- C1 (amended): for every session and every sequence of orchestrator
events, `selectedPrescription` is non-null only if `patientVerified` is true;
and whenever a step makes `selectedPrescription` non-null, the new value is a
member of the eligible-prescription list stored on the session at that step.
(Membership in the most recently fetched list does not persist: a later
re-fetch can replace the list without clearing the selection, see the
counterexample.) -/
theorem claim1_identity_gating :
    (∀ (sessionId : String) (o0 : Oracle) (events : List Event) (rx : Prescription),
      (runEvents sessionId o0 events).context.selectedPrescription = some rx →
      (runEvents sessionId o0 events).context.patientVerified = true) ∧
    (∀ (s : Session) (e : Event) (rx : Prescription),
      (step s e).1.context.selectedPrescription = some rx →
      s.context.selectedPrescription = some rx ∨
        ∃ l, (step s e).1.context.prescriptions = some l ∧ rx ∈ l) := by
  constructor
  · intro sessionId o0 events rx hsel
    exact (runEvents_inv sessionId o0 events).1 (by rw [hsel]; rfl)
  · intro s e rx h
    exact step_selected s e rx h

/-- Witness for C1 (amended): the selecting run of events leaves the flag
set, and a concrete selecting step yields a member of the stored list. -/
theorem claim1_witness :
    ((runEvents ("s1") Fixtures.oBase Fixtures.eventsSelect).context.patientVerified = true) ∧
    (({ Fixtures.sEligible with
          state := PRESCRIPTION_SELECTION } : Session).context.selectedPrescription =
        some Fixtures.rxMetformin ∨
      ∃ l, (step { Fixtures.sEligible with state := PRESCRIPTION_SELECTION }
          (.text_input ("metformin") Fixtures.oSelectWarned)).1.context.prescriptions =
            some l ∧ Fixtures.rxMetformin ∈ l) :=
  ⟨claim1_identity_gating.1 ("s1") Fixtures.oBase Fixtures.eventsSelect Fixtures.rxMetformin
      (by decide),
   claim1_identity_gating.2 { Fixtures.sEligible with state := PRESCRIPTION_SELECTION }
      (.text_input ("metformin") Fixtures.oSelectWarned) Fixtures.rxMetformin (by decide)⟩

end IdentityGating

end RxVoice
